import Mathlib

/-!
# Astute payroll SOAP client (`client.go`): shallow embedding and properties

The Go package `astute` is embedded as pure Lean functions.

* Go strings and byte slices are lists of byte values (`GoString`).
* A Go call that can panic returns `Except Panic _`; a Go `(result, error)` pair is a
  Lean pair whose second component is `Option GoError`. The `params` pointers of
  `SaveTimesheet` and `SubmitTimesheet` are taken to be non-nil.
* The collaborators that are not part of `client.go` (the `Backend`, the generic
  `ParseResponse`, the UUID generator, the clock and two text forms of `time.Time`)
  are fields of `Backend` and `Runtime`.
* The standard-library functions the client calls (`fmt.Errorf`, `xml.EscapeText`,
  `strings.Contains`, `strings.Split`, `strings.TrimSpace`, `utf8.DecodeRune`) are
  modelled after the Go standard library.
-/

namespace Astute

/-! ## Go strings -/

/-- A Go `string` or `[]byte`: a sequence of bytes, each a number below 256. -/
abbrev GoString := List Nat

/-- Go `utf8.AppendRune`: the UTF-8 encoding of a rune; a surrogate or out-of-range rune is
encoded as U+FFFD. -/
def EncodeRune (r : Nat) : GoString :=
  if r ≤ 0x7F then [r]
  else if r ≤ 0x7FF then [0xC0 + r / 64, 0x80 + r % 64]
  else if r > 0x10FFFF ∨ (0xD800 ≤ r ∧ r ≤ 0xDFFF) then [0xEF, 0xBF, 0xBD]
  else if r ≤ 0xFFFF then [0xE0 + r / 4096, 0x80 + r / 64 % 64, 0x80 + r % 64]
  else [0xF0 + r / 262144, 0x80 + r / 4096 % 64, 0x80 + r / 64 % 64, 0x80 + r % 64]

/-- The bytes of a string literal of the source (its UTF-8 encoding). -/
def str (s : String) : GoString := s.toList.flatMap (fun c => EncodeRune c.toNat)

/-- Go `utf8.DecodeRune`: the first rune of `p` and its width in bytes. An invalid or
truncated encoding yields `(U+FFFD, 1)`, the empty input `(U+FFFD, 0)`. -/
def DecodeRune (p : GoString) : Nat × Nat :=
  match p with
  | [] => (0xFFFD, 0)
  | s0 :: rest =>
    if s0 < 0x80 then (s0, 1)
    else if s0 < 0xC2 ∨ 0xF4 < s0 then (0xFFFD, 1)
    else
      let sz := if s0 < 0xE0 then 2 else if s0 < 0xF0 then 3 else 4
      let lo := if s0 = 0xE0 then 0xA0 else if s0 = 0xF0 then 0x90 else 0x80
      let hi := if s0 = 0xED then 0x9F else if s0 = 0xF4 then 0x8F else 0xBF
      if p.length < sz then (0xFFFD, 1)
      else
        match rest with
        | [] => (0xFFFD, 1)
        | s1 :: rest1 =>
          if s1 < lo ∨ hi < s1 then (0xFFFD, 1)
          else if sz ≤ 2 then (s0 % 32 * 64 + s1 % 64, 2)
          else
            match rest1 with
            | [] => (0xFFFD, 1)
            | s2 :: rest2 =>
              if s2 < 0x80 ∨ 0xBF < s2 then (0xFFFD, 1)
              else if sz ≤ 3 then (s0 % 16 * 4096 + s1 % 64 * 64 + s2 % 64, 3)
              else
                match rest2 with
                | [] => (0xFFFD, 1)
                | s3 :: _ =>
                  if s3 < 0x80 ∨ 0xBF < s3 then (0xFFFD, 1)
                  else (s0 % 8 * 262144 + s1 % 64 * 4096 + s2 % 64 * 64 + s3 % 64, 4)

/-- Go `strings.HasPrefix(s, pre)`. -/
def HasPrefix : GoString → GoString → Bool
  | _, [] => true
  | [], _ :: _ => false
  | c :: cs, p :: ps => c == p && HasPrefix cs ps

/-- Go `strings.Contains(s, substr)`: `substr` occurs in `s` at some byte offset. -/
def Contains : GoString → GoString → Bool
  | [], substr => HasPrefix [] substr
  | c :: cs, substr => HasPrefix (c :: cs) substr || Contains cs substr

/-- The loop of `strings.Split` for a non-empty separator: `skip` counts the bytes of a
separator occurrence that are still to be passed over. -/
def splitLoop (sep : GoString) : Nat → GoString → List GoString
  | _, [] => [[]]
  | skip + 1, _ :: cs => splitLoop sep skip cs
  | 0, c :: cs =>
    if HasPrefix (c :: cs) sep then [] :: splitLoop sep (sep.length - 1) cs
    else
      match splitLoop sep 0 cs with
      | [] => [[c]]
      | piece :: pieces => (c :: piece) :: pieces

/-- Go `strings.Split(s, sep)` for a non-empty separator: the pieces of `s` between the
non-overlapping occurrences of `sep`, found from the left. -/
def Split (s sep : GoString) : List GoString := splitLoop sep 0 s

/-- The ASCII white space that `strings.TrimSpace` removes: tab, line feed, vertical tab,
form feed, carriage return and space. -/
def asciiSpace (c : Nat) : Bool :=
  c == 9 || c == 10 || c == 11 || c == 12 || c == 13 || c == 32

/-- Go `strings.TrimSpace` on a string whose first and last bytes outside the ASCII white
space are ASCII (the only case `client.go` has: its template literals). -/
def TrimSpace (s : GoString) : GoString :=
  ((s.dropWhile asciiSpace).reverse.dropWhile asciiSpace).reverse

/-! ## `encoding/xml`: `EscapeText` -/

/-- Go `xml.isInCharacterRange`: the runes XML 1.0 allows. -/
def isInCharacterRange (r : Nat) : Bool :=
  r == 0x09 || r == 0x0A || r == 0x0D || (0x20 ≤ r && r ≤ 0xD7FF) ||
    (0xE000 ≤ r && r ≤ 0xFFFD) || (0x10000 ≤ r && r ≤ 0x10FFFF)

/-- The replacement `xml.EscapeText` writes for a rune of the given width, if any. -/
def escapeOf (r width : Nat) : Option GoString :=
  if r = 34 then some (str "&#34;")
  else if r = 39 then some (str "&#39;")
  else if r = 38 then some (str "&amp;")
  else if r = 60 then some (str "&lt;")
  else if r = 62 then some (str "&gt;")
  else if r = 9 then some (str "&#x9;")
  else if r = 10 then some (str "&#xA;")
  else if r = 13 then some (str "&#xD;")
  else if !isInCharacterRange r || (r = 0xFFFD ∧ width = 1) then some [0xEF, 0xBF, 0xBD]
  else none

/-- The rune loop of `xml.EscapeText`: `skip` counts the bytes of the current rune that are
still to be passed over. -/
def escapeLoop : Nat → GoString → GoString
  | _, [] => []
  | skip + 1, _ :: cs => escapeLoop skip cs
  | 0, c :: cs =>
    let rw := DecodeRune (c :: cs)
    match escapeOf rw.1 rw.2 with
    | some esc => esc ++ escapeLoop (rw.2 - 1) cs
    | none => (c :: cs).take rw.2 ++ escapeLoop (rw.2 - 1) cs

/-- Go `xml.EscapeText` into a fresh `bytes.Buffer`: the buffer contents. -/
def EscapeText (s : GoString) : GoString := escapeLoop 0 s

/-! ## `fmt.Errorf` called with a format and no operand -/

/-- A Go `error`, observed through its `Error()` message. -/
structure GoError where
  msg : GoString
deriving DecidableEq

/-- The flag bytes of a `fmt` verb: `#`, `0`, `+`, `-` and space. -/
def isFlag (c : Nat) : Bool :=
  c == 35 || c == 48 || c == 43 || c == 45 || c == 32

/-- The loop of `fmt.parsenum` over the window `s[start:end]`: the number read so far,
whether a digit was seen and how many bytes were read; on overflow (`tooLarge`) the
result is `(0, false, end - start)`. -/
def parsenumLoop (window : Nat) : GoString → Nat → Bool → Nat → Nat × Bool × Nat
  | [], num, isnum, k => (num, isnum, k)
  | c :: cs, num, isnum, k =>
    if 48 ≤ c ∧ c ≤ 57 then
      if num > 1000000 then (0, false, window)
      else parsenumLoop window cs (num * 10 + (c - 48)) true (k + 1)
    else (num, isnum, k)

/-- Go `fmt.parsenum(s, start, end)` on `w = s[start:end]`: `(num, isnum, newi - start)`. -/
def parsenum (w : GoString) : Nat × Bool × Nat :=
  parsenumLoop w.length w 0 false 0

/-- Go `fmt.parseArgNumber(format)` where `format` starts with `[`: `(index, wid, ok)`. -/
def parseArgNumber (format : GoString) : Int × Nat × Bool :=
  if format.length < 3 then (0, 1, false)
  else
    let inner := (format.drop 1).takeWhile (fun c => c != 93)
    if inner.length + 1 < format.length then
      let r := parsenum inner
      if !r.2.1 || r.2.2 != inner.length then (0, inner.length + 2, false)
      else ((r.1 : Int) - 1, inner.length + 2, true)
    else (0, 1, false)

/-- The part of the `fmt` printer state that a verb without operands can change. -/
structure VerbState where
  /-- The format bytes not yet read. -/
  rest : GoString
  /-- Printer field `goodArgNum`. -/
  goodArgNum : Bool
  /-- Local `afterIndex` of `doPrintf`. -/
  afterIndex : Bool
  /-- What the verb has written to the buffer so far. -/
  out : GoString

/-- Go `(*pp).argNumber` with `numArgs = 0`: an argument index `[n]` is read, is never in
range, and clears `goodArgNum`. -/
def argNumber (st : VerbState) : VerbState :=
  match st.rest with
  | 91 :: _ =>
    let r := parseArgNumber st.rest
    let inRange : Bool := r.2.2 && decide (0 ≤ r.1) && decide (r.1 < 0)
    if inRange then { st with rest := st.rest.drop r.2.1, afterIndex := true }
    else { st with rest := st.rest.drop r.2.1, goodArgNum := false, afterIndex := r.2.2 }
  | _ => { st with afterIndex := false }

/-- The width part of a verb: `*` has no operand to read and writes `%!(BADWIDTH)`. -/
def verbWidth (st : VerbState) : VerbState :=
  match st.rest with
  | 42 :: cs => { st with rest := cs, out := st.out ++ str "%!(BADWIDTH)", afterIndex := false }
  | _ =>
    let r := parsenum st.rest
    { st with rest := st.rest.drop r.2.2,
              goodArgNum := if st.afterIndex && r.2.1 then false else st.goodArgNum }

/-- The precision part of a verb: `.` followed by an index, `*` or a number. -/
def verbPrec (st : VerbState) : VerbState :=
  match st.rest with
  | 46 :: cs =>
    let st1 := argNumber { st with rest := cs,
                                   goodArgNum := if st.afterIndex then false else st.goodArgNum }
    match st1.rest with
    | 42 :: cs1 => { st1 with rest := cs1, out := st1.out ++ str "%!(BADPREC)", afterIndex := false }
    | _ => { st1 with rest := st1.rest.drop (parsenum st1.rest).2.2 }
  | _ => st

/-- One verb of `(*pp).doPrintf` when there is no operand: `format` is what follows the
`%`; the result is what is written and how many bytes of `format` the verb takes. -/
def verbStep (format : GoString) : GoString × Nat :=
  let st0 : VerbState :=
    { rest := format.dropWhile isFlag, goodArgNum := true, afterIndex := false, out := [] }
  let st3 := verbPrec (verbWidth (argNumber st0))
  let st4 := if st3.afterIndex then st3 else argNumber st3
  match st4.rest with
  | [] => (st4.out ++ str "%!(NOVERB)", format.length)
  | c :: cs =>
    let rw := if c < 0x80 then (c, 1) else DecodeRune (c :: cs)
    let written :=
      if rw.1 = 37 then [37]
      else if !st4.goodArgNum then str "%!" ++ EncodeRune rw.1 ++ str "(BADINDEX)"
      else str "%!" ++ EncodeRune rw.1 ++ str "(MISSING)"
    (st4.out ++ written, format.length - st4.rest.length + rw.2)

/-- The loop of `(*pp).doPrintf(format, nil)`: bytes other than `%` are copied, a `%`
starts a verb; `skip` counts the bytes of the current verb still to be passed over. -/
def doPrintfLoop : Nat → GoString → GoString
  | _, [] => []
  | skip + 1, _ :: cs => doPrintfLoop skip cs
  | 0, c :: cs =>
    if c = 37 then (verbStep cs).1 ++ doPrintfLoop (verbStep cs).2 cs
    else c :: doPrintfLoop 0 cs

/-- Go `fmt.Errorf(format)` with no operand: an error whose message is the format with
its verbs expanded (no operand is wrapped, so the error is `errors.New` of that text). -/
def Errorf (format : GoString) : GoError := ⟨doPrintfLoop 0 format⟩

/-! ## `time.Time` -/

/-- A Go `time.Time` without a monotonic clock reading: the instant (`unix` seconds and
`nsec` nanoseconds since 1970-01-01T00:00:00Z) and the offset east of UTC, in seconds, that
the value's location has at that instant. -/
structure Time where
  unix : Int
  nsec : Nat
  offset : Int
deriving DecidableEq

/-- Go `t.Before(u)`: the instant of `t` is earlier than the instant of `u`. -/
def Time.Before (t u : Time) : Bool :=
  decide (t.unix < u.unix) || (decide (t.unix = u.unix) && decide (t.nsec < u.nsec))

/-- Go `t.IsZero()`: the instant is January 1, year 1, 00:00:00 UTC. -/
def Time.IsZero (t : Time) : Bool :=
  decide (t.unix = -62135596800) && decide (t.nsec = 0)

/-- Go `t.Weekday()`: the day of the week in the value's location, Sunday = 0. -/
def Time.Weekday (t : Time) : Nat :=
  (((t.unix + t.offset) / 86400 + 4) % 7).toNat

/-- Go `t.Clock()`: hour, minute and second of the day in the value's location. -/
def Time.Clock (t : Time) : Nat × Nat × Nat :=
  let sec := ((t.unix + t.offset) % 86400).toNat
  (sec / 3600, sec % 3600 / 60, sec % 60)

/-- Go `time.appendInt(b, x, 2)` for `0 ≤ x < 100`: two decimal digits. -/
def appendInt2 (x : Nat) : GoString := [48 + x / 10, 48 + x % 10]

/-- Go `t.Format("15:04:05")`. -/
def Time.FormatClock (t : Time) : GoString :=
  appendInt2 t.Clock.1 ++ str ":" ++ appendInt2 t.Clock.2.1 ++ str ":" ++ appendInt2 t.Clock.2.2

/-! ## Data model -/

structure AuthParams where
  ApiUrl : GoString
  ApiKey : GoString
  ApiUsername : GoString
  ApiPassword : GoString
deriving DecidableEq

structure QueryUserParams where
  JobCode : GoString
deriving DecidableEq

structure QueryTimesheetParams where
  UID : GoString
deriving DecidableEq

structure UserParams where
  UID : GoString
  UserId : GoString
deriving DecidableEq

structure TimesheetDay where
  StartTime : Time
  EndTime : Time
  BreakTime : GoString
  Notes : GoString
deriving DecidableEq

structure SaveTimesheetParams where
  UserParams : UserParams
  TSID : GoString
  Days : List TimesheetDay
  DidNotWork : Bool
  Submit : Bool
  SubmissionTime : Time
deriving DecidableEq

structure SubmitTimesheetParams where
  UserParams : UserParams
  TSID : GoString
  StartTime : Time
  SubmissionTime : Time
deriving DecidableEq

structure SaveTimesheetDayTemplateParams where
  WeekdayTag : GoString
  StartTime : GoString
  EndTime : GoString
  BreakTime : GoString
  Notes : GoString
deriving DecidableEq

structure SaveTimesheetResponse where
  TimesheetId : GoString
deriving DecidableEq

/-- The text node of the outer envelope (`Results` or `Faultstring`). -/
structure xmlText where
  Text : GoString
deriving DecidableEq

structure faultFault where
  Faultstring : xmlText
deriving DecidableEq

structure faultBody where
  Fault : faultFault
deriving DecidableEq

/-- The fault shape: `Body.Fault.Faultstring.Text`. -/
structure faultResponse where
  Body : faultBody
deriving DecidableEq

structure parmsOut where
  Results : xmlText
deriving DecidableEq

structure operationResponse where
  ParmsOut : parmsOut
deriving DecidableEq

structure queryUserBody where
  UserQueryResponse : operationResponse
deriving DecidableEq

/-- The outer envelope of a user query: `Body.UserQueryResponse.ParmsOut.Results.Text`. -/
structure queryUserXmlResponse where
  Body : queryUserBody
deriving DecidableEq

structure queryTimesheetBody where
  TimesheetQueryResponse : operationResponse
deriving DecidableEq

/-- The outer envelope of a timesheet query:
`Body.TimesheetQueryResponse.ParmsOut.Results.Text`. -/
structure queryTimesheetXmlResponse where
  Body : queryTimesheetBody
deriving DecidableEq

structure saveTimesheetBody where
  TimesheetSaveResponse : operationResponse
deriving DecidableEq

/-- The outer envelope of a save: `Body.TimesheetSaveResponse.ParmsOut.Results.Text`. -/
structure saveTimesheetXmlResponse where
  Body : saveTimesheetBody
deriving DecidableEq

/-- The backend's answer: HTTP status code and raw body. -/
structure ClientResponse where
  Code : Int
  Data : GoString
deriving DecidableEq

/-- The anonymous `templateData` structs handed to `Backend.Call`, one constructor per
call site. -/
inductive TemplateData
  | userQuery (auth : AuthParams) (params : QueryUserParams)
  | timesheetQuery (auth : AuthParams) (params : QueryTimesheetParams)
  | timesheetById (auth : AuthParams) (TSID : GoString)
  | didNotWork (auth : AuthParams) (user : UserParams) (TSID ApiTransactionId : GoString)
  | save (auth : AuthParams) (user : UserParams) (TSID ApiTransactionId TimesheetDate : GoString)
      (Days : List SaveTimesheetDayTemplateParams) (Submit : Bool) (SubmissionTime : GoString)
  | submit (auth : AuthParams) (user : UserParams)
      (TSID ApiTransactionId TimesheetDate SubmissionTime : GoString)
deriving DecidableEq

/-- The arguments of `Backend.Call(url, name, action, template, data)`: endpoint, operation
name, SOAP action, request template and template data. -/
structure CallArgs where
  url : GoString
  name : GoString
  action : GoString
  template : GoString
  data : TemplateData
deriving DecidableEq

/-- The interface `Backend`: `Call` sends the rendered request and answers with a response
or a transport error (a `nil` error comes with a response). -/
structure Backend where
  Call : CallArgs → Except GoError ClientResponse

structure astuteClient where
  B : Backend
  AuthParams : AuthParams

/-- What the client takes from outside `client.go`: the instances of the generic
`ParseResponse(data, T{})` (the value decoded so far and the decode error, if any), the
transaction id `uuid.New().String()`, the clock `time.Now()`, and the text forms
`t.Format("2006-01-02")` and `t.String()` of a time. `QU` and `QT` are the types
`QueryUserResponse` and `QueryTimesheetResponse`. -/
structure Runtime (QU QT : Type) where
  ParseFault : GoString → faultResponse × Option GoError
  ParseQueryUserXml : GoString → queryUserXmlResponse × Option GoError
  ParseQueryTimesheetXml : GoString → queryTimesheetXmlResponse × Option GoError
  ParseSaveTimesheetXml : GoString → saveTimesheetXmlResponse × Option GoError
  ParseQueryUser : GoString → QU × Option GoError
  ParseQueryTimesheet : GoString → QT × Option GoError
  uuid : GoString
  now : Time
  FormatDate : Time → GoString
  TimeString : Time → GoString

/-- A Go run-time panic. -/
inductive Panic
  | indexOutOfRange
  | sliceBoundsOutOfRange
deriving DecidableEq

/-- Go `xs[i]`. -/
def index {α : Type} (xs : List α) (i : Nat) : Except Panic α :=
  match xs[i]? with
  | some x => .ok x
  | none => .error .indexOutOfRange

/-- Go `s[n:]`. -/
def sliceFrom (s : GoString) (n : Nat) : Except Panic GoString :=
  if n ≤ s.length then .ok (s.drop n) else .error .sliceBoundsOutOfRange

/-! ## Request templates -/

/-- The names of the fields the templates refer to. -/
inductive Field
  | ApiUrl | ApiKey | ApiUsername | ApiPassword | JobCode | UID | UserId | TSID
  | ApiTransactionId | TimesheetDate | Days | Submit | SubmissionTime
  | WeekdayTag | StartTime | EndTime | BreakTime | Notes
deriving DecidableEq

def Field.name : Field → String
  | .ApiUrl => "ApiUrl" | .ApiKey => "ApiKey" | .ApiUsername => "ApiUsername"
  | .ApiPassword => "ApiPassword" | .JobCode => "JobCode" | .UID => "UID"
  | .UserId => "UserId" | .TSID => "TSID" | .ApiTransactionId => "ApiTransactionId"
  | .TimesheetDate => "TimesheetDate" | .Days => "Days" | .Submit => "Submit"
  | .SubmissionTime => "SubmissionTime" | .WeekdayTag => "WeekdayTag"
  | .StartTime => "StartTime" | .EndTime => "EndTime" | .BreakTime => "BreakTime"
  | .Notes => "Notes"

/-- A piece of template without nesting: literal text or the action `{{.Field}}`. -/
inductive Leaf
  | text (s : String)
  | field (f : Field)
deriving DecidableEq

/-- A piece of a request template: a leaf, `{{range $key, $value := .Field}}…{{end}}` or
`{{if .Field}}…{{end}}`. -/
inductive Node
  | leaf (l : Leaf)
  | range (f : Field) (body : List Leaf)
  | cond (f : Field) (body : List Leaf)
deriving DecidableEq

/-- The template text of a leaf. -/
def Leaf.source : Leaf → GoString
  | .text s => str s
  | .field f => str "\x7b\x7b." ++ str f.name ++ str "\x7d\x7d"

/-- The template text of a node. -/
def Node.source : Node → GoString
  | .leaf l => l.source
  | .range f body =>
    str "\x7b\x7brange $key, $value := ." ++ str f.name ++ str "\x7d\x7d" ++
      (body.map Leaf.source).flatten ++ str "\x7b\x7bend\x7d\x7d"
  | .cond f body =>
    str "\x7b\x7bif ." ++ str f.name ++ str "\x7d\x7d" ++
      (body.map Leaf.source).flatten ++ str "\x7b\x7bend\x7d\x7d"

/-- The template text of a template: the raw string literal of the source. -/
def templateSource (t : List Node) : GoString := (t.map Node.source).flatten

def userQueryTemplate : List Node :=
  [.leaf (.text "<soap:Envelope xmlns:soap=\"http://schemas.xmlsoap.org/soap/envelope/\" xmlns:tns=\"urn:tsoIntegrator\" xmlns:xsi=\"http://www.w3.org/2001/XMLSchema-instance\">\n<soap:Body>\n<q1:UserQuery xmlns:q1=\"urn:UserQuery\">\n  <tns:userGet>\n    <api_key>"),
   .leaf (.field .ApiKey), .leaf (.text "</api_key>\n    <api_username>"),
   .leaf (.field .ApiUsername), .leaf (.text "</api_username>\n    <api_password>"),
   .leaf (.field .ApiPassword), .leaf (.text "</api_password>\n    <query>job_code like \x27%"),
   .leaf (.field .JobCode),
   .leaf (.text "%\x27</query>\n  </tns:userGet>\n</q1:UserQuery>\n</soap:Body>\n</soap:Envelope>")]

def timesheetQueryByJobTemplate : List Node :=
  [.leaf (.text "<soap:Envelope xmlns:soap=\"http://schemas.xmlsoap.org/soap/envelope/\" xmlns:tns=\"urn:tsoIntegrator\" xmlns:xsi=\"http://www.w3.org/2001/XMLSchema-instance\">\n<soap:Body>\n<q1:TimesheetQuery xmlns:q1=\"urn:TimesheetQuery\">\n  <tns:userGet>\n    <api_key>"),
   .leaf (.field .ApiKey), .leaf (.text "</api_key>\n    <api_username>"),
   .leaf (.field .ApiUsername), .leaf (.text "</api_username>\n    <api_password>"),
   .leaf (.field .ApiPassword), .leaf (.text "</api_password>\n    <query>UID = \x27"),
   .leaf (.field .UID),
   .leaf (.text "\x27</query>\n  </tns:userGet>\n</q1:TimesheetQuery>\n</soap:Body>\n</soap:Envelope>")]

def timesheetQueryByIdTemplate : List Node :=
  [.leaf (.text "<soap:Envelope xmlns:soap=\"http://schemas.xmlsoap.org/soap/envelope/\" xmlns:tns=\"urn:tsoIntegrator\" xmlns:xsi=\"http://www.w3.org/2001/XMLSchema-instance\">\n<soap:Body>\n<q1:TimesheetQuery xmlns:q1=\"urn:TimesheetQuery\">\n  <tns:userGet>\n    <api_key>"),
   .leaf (.field .ApiKey), .leaf (.text "</api_key>\n    <api_username>"),
   .leaf (.field .ApiUsername), .leaf (.text "</api_username>\n    <api_password>"),
   .leaf (.field .ApiPassword), .leaf (.text "</api_password>\n    <query>TSID = \x27"),
   .leaf (.field .TSID),
   .leaf (.text "\x27</query>\n  </tns:userGet>\n</q1:TimesheetQuery>\n</soap:Body>\n</soap:Envelope>")]

def didNotWorkTemplate : List Node :=
  [.leaf (.text "<soap:Envelope xmlns:soap=\"http://schemas.xmlsoap.org/soap/envelope/\" xmlns:tns=\"urn:tsoIntegrator\" xmlns:xsi=\"http://www.w3.org/2001/XMLSchema-instance\">\n<soap:Body>\n<q1:TimesheetSave xmlns:q1=\"urn:TimesheetSave\">\n  <tns:timesheetSave>\n    <api_key>"),
   .leaf (.field .ApiKey), .leaf (.text "</api_key>\n    <api_username>"),
   .leaf (.field .ApiUsername), .leaf (.text "</api_username>\n    <api_password>"),
   .leaf (.field .ApiPassword), .leaf (.text "</api_password>\n    <api_transaction_id>"),
   .leaf (.field .ApiTransactionId), .leaf (.text "</api_transaction_id>\n    <UID>"),
   .leaf (.field .UID), .leaf (.text "</UID>\n    <user_id>"), .leaf (.field .UserId),
   .leaf (.text "</user_id>\n\t\t<TSID>"), .leaf (.field .TSID),
   .leaf (.text "</TSID>\n\t\t<did_not_work>1</did_not_work>\n  </tns:timesheetSave>\n</q1:TimesheetSave>\n</soap:Body>\n</soap:Envelope>")]

def saveTimesheetTemplate : List Node :=
  [.leaf (.text "<soap:Envelope xmlns:soap=\"http://schemas.xmlsoap.org/soap/envelope/\" xmlns:tns=\"urn:tsoIntegrator\" xmlns:xsi=\"http://www.w3.org/2001/XMLSchema-instance\">\n<soap:Body>\n<q1:TimesheetSave xmlns:q1=\"urn:TimesheetSave\">\n  <tns:timesheetSave>\n    <api_key>"),
   .leaf (.field .ApiKey), .leaf (.text "</api_key>\n    <api_username>"),
   .leaf (.field .ApiUsername), .leaf (.text "</api_username>\n    <api_password>"),
   .leaf (.field .ApiPassword), .leaf (.text "</api_password>\n    <api_transaction_id>"),
   .leaf (.field .ApiTransactionId), .leaf (.text "</api_transaction_id>\n    <UID>"),
   .leaf (.field .UID), .leaf (.text "</UID>\n    <user_id>"), .leaf (.field .UserId),
   .leaf (.text "</user_id>\n\t<TSID>"), .leaf (.field .TSID),
   .leaf (.text "</TSID>\n    <date>"), .leaf (.field .TimesheetDate),
   .leaf (.text "</date>\n\t\t"),
   .range .Days [.text "\n\t\t\t<", .field .WeekdayTag, .text "_start>", .field .StartTime, .text "</", .field .WeekdayTag, .text "_start>\n\t\t\t<", .field .WeekdayTag, .text "_finish>", .field .EndTime, .text "</", .field .WeekdayTag, .text "_finish>\n\t\t\t<", .field .WeekdayTag, .text "_break>", .field .BreakTime, .text "</", .field .WeekdayTag, .text "_break>\n\t\t\t<", .field .WeekdayTag, .text "_notes>", .field .Notes, .text "</", .field .WeekdayTag, .text "_notes>\n\t\t"],
   .leaf (.text "\n\t\t"),
   .cond .Submit [.text "\n\t\t\t<complete>", .field .SubmissionTime, .text "</complete>\n\t\t"],
   .leaf (.text "\n  </tns:timesheetSave>\n</q1:TimesheetSave>\n</soap:Body>\n</soap:Envelope>")]

def submitTimesheetTemplate : List Node :=
  [.leaf (.text "<soap:Envelope xmlns:soap=\"http://schemas.xmlsoap.org/soap/envelope/\" xmlns:tns=\"urn:tsoIntegrator\" xmlns:xsi=\"http://www.w3.org/2001/XMLSchema-instance\">\n<soap:Body>\n<q1:TimesheetSave xmlns:q1=\"urn:TimesheetSave\">\n  <tns:timesheetSave>\n    <api_key>"),
   .leaf (.field .ApiKey), .leaf (.text "</api_key>\n    <api_username>"),
   .leaf (.field .ApiUsername), .leaf (.text "</api_username>\n    <api_password>"),
   .leaf (.field .ApiPassword), .leaf (.text "</api_password>\n    <api_transaction_id>"),
   .leaf (.field .ApiTransactionId), .leaf (.text "</api_transaction_id>\n    <UID>"),
   .leaf (.field .UID), .leaf (.text "</UID>\n    <user_id>"), .leaf (.field .UserId),
   .leaf (.text "</user_id>\n\t<TSID>"), .leaf (.field .TSID),
   .leaf (.text "</TSID>\n    <date>"), .leaf (.field .TimesheetDate),
   .leaf (.text "</date>\n    <complete>"), .leaf (.field .SubmissionTime),
   .leaf (.text "</complete>\n  </tns:timesheetSave>\n</q1:TimesheetSave>\n</soap:Body>\n</soap:Envelope>")]

/-! ## Rendering a request -/

/-- A value a template action can evaluate to. -/
inductive Value
  | string (s : GoString)
  | bool (b : Bool)
  | days (ds : List SaveTimesheetDayTemplateParams)

def AuthParams.field (a : AuthParams) : Field → Option Value
  | .ApiUrl => some (.string a.ApiUrl)
  | .ApiKey => some (.string a.ApiKey)
  | .ApiUsername => some (.string a.ApiUsername)
  | .ApiPassword => some (.string a.ApiPassword)
  | _ => none

def UserParams.field (u : UserParams) : Field → Option Value
  | .UID => some (.string u.UID)
  | .UserId => some (.string u.UserId)
  | _ => none

def SaveTimesheetDayTemplateParams.field (d : SaveTimesheetDayTemplateParams) :
    Field → Option Value
  | .WeekdayTag => some (.string d.WeekdayTag)
  | .StartTime => some (.string d.StartTime)
  | .EndTime => some (.string d.EndTime)
  | .BreakTime => some (.string d.BreakTime)
  | .Notes => some (.string d.Notes)
  | _ => none

/-- Field lookup in a `templateData` struct, embedded structs included. -/
def TemplateData.field : TemplateData → Field → Option Value
  | .userQuery auth params, f =>
    match f with
    | .JobCode => some (.string params.JobCode)
    | _ => auth.field f
  | .timesheetQuery auth params, f =>
    match f with
    | .UID => some (.string params.UID)
    | _ => auth.field f
  | .timesheetById auth TSID, f =>
    match f with
    | .TSID => some (.string TSID)
    | _ => auth.field f
  | .didNotWork auth user TSID ApiTransactionId, f =>
    match f with
    | .TSID => some (.string TSID)
    | .ApiTransactionId => some (.string ApiTransactionId)
    | .UID | .UserId => user.field f
    | _ => auth.field f
  | .save auth user TSID ApiTransactionId TimesheetDate Days Submit SubmissionTime, f =>
    match f with
    | .TSID => some (.string TSID)
    | .ApiTransactionId => some (.string ApiTransactionId)
    | .TimesheetDate => some (.string TimesheetDate)
    | .Days => some (.days Days)
    | .Submit => some (.bool Submit)
    | .SubmissionTime => some (.string SubmissionTime)
    | .UID | .UserId => user.field f
    | _ => auth.field f
  | .submit auth user TSID ApiTransactionId TimesheetDate SubmissionTime, f =>
    match f with
    | .TSID => some (.string TSID)
    | .ApiTransactionId => some (.string ApiTransactionId)
    | .TimesheetDate => some (.string TimesheetDate)
    | .SubmissionTime => some (.string SubmissionTime)
    | .UID | .UserId => user.field f
    | _ => auth.field f

/-- Modelled from the spec: the Envelope Template Engine, which is behind `Backend.Call`
and not in `client.go`. A leaf renders as its text or as the value of its field,
substituted without escaping; a missing field or a field that is a list is an error. -/
def execLeaf (dot : Field → Option Value) : Leaf → Option GoString
  | .text s => some (str s)
  | .field f =>
    match dot f with
    | some (.string s) => some s
    | some (.bool b) => some (if b then str "true" else str "false")
    | _ => none

/-- Modelled from the spec: the Envelope Template Engine renders a run of leaves in
order. -/
def execLeaves (dot : Field → Option Value) : List Leaf → Option GoString
  | [] => some []
  | l :: ls =>
    match execLeaf dot l, execLeaves dot ls with
    | some a, some b => some (a ++ b)
    | _, _ => none

/-- Modelled from the spec: the Envelope Template Engine renders the per-day block once
for every day, in the order of the list, with the day as the data. -/
def execRange (body : List Leaf) : List SaveTimesheetDayTemplateParams → Option GoString
  | [] => some []
  | d :: ds =>
    match execLeaves d.field body, execRange body ds with
    | some a, some b => some (a ++ b)
    | _, _ => none

/-- Modelled from the spec: the Envelope Template Engine renders a node; the body of an
`if` is rendered only when the field is set (true, non-empty). -/
def execNode (data : TemplateData) : Node → Option GoString
  | .leaf l => execLeaf data.field l
  | .range f body =>
    match data.field f with
    | some (.days ds) => execRange body ds
    | _ => none
  | .cond f body =>
    match data.field f with
    | some (.bool b) => if b then execLeaves data.field body else some []
    | some (.string s) => if s ≠ [] then execLeaves data.field body else some []
    | some (.days ds) => if ds ≠ [] then execLeaves data.field body else some []
    | none => none

/-- Modelled from the spec: the Envelope Template Engine renders a template against the
data of the call; `none` is a rendering error. -/
def render (t : List Node) (data : TemplateData) : Option GoString :=
  match t with
  | [] => some []
  | n :: ns =>
    match execNode data n, render ns data with
    | some a, some b => some (a ++ b)
    | _, _ => none

/-! ## The client operations -/

section Operations

variable {QueryUserResponse QueryTimesheetResponse : Type}
variable [Inhabited QueryUserResponse] [Inhabited QueryTimesheetResponse]

/-- The request part of `QueryUser` (lines 22-45): the arguments of its `Backend.Call`. -/
def QueryUserCall (c : astuteClient) (params : QueryUserParams) : CallArgs :=
  { url := c.AuthParams.ApiUrl
    name := str "UserQuery"
    action := str "urn:UserQuery"
    template := TrimSpace (templateSource userQueryTemplate)
    data := .userQuery c.AuthParams params }

/-- `QueryUser` (lines 19-71). The zero value of the result type is `default`. -/
def QueryUser (rt : Runtime QueryUserResponse QueryTimesheetResponse) (c : astuteClient)
    (params : QueryUserParams) : QueryUserResponse × Option GoError :=
  let res : QueryUserResponse := default
  match c.B.Call (QueryUserCall c params) with
  | .error err => (res, some err)
  | .ok resp =>
    if resp.Code ≠ 200 then
      match rt.ParseFault resp.Data with
      | (_, some _) => (res, none)
      | (result, none) => (res, some (Errorf result.Body.Fault.Faultstring.Text))
    else
      match rt.ParseQueryUserXml resp.Data with
      | (_, some _) => (res, none)
      | (result, none) =>
        let xmlUsers := result.Body.UserQueryResponse.ParmsOut.Results.Text
        match rt.ParseQueryUser xmlUsers with
        | (res, some _) => (res, none)
        | (res, none) => (res, none)

/-- The request part of `QueryTimesheetByJob` (lines 76-99). -/
def QueryTimesheetByJobCall (c : astuteClient) (params : QueryTimesheetParams) : CallArgs :=
  { url := c.AuthParams.ApiUrl
    name := str "TimesheetQuery"
    action := str "urn:TimesheetQuery"
    template := TrimSpace (templateSource timesheetQueryByJobTemplate)
    data := .timesheetQuery c.AuthParams params }

/-- `QueryTimesheetByJob` (lines 73-125). -/
def QueryTimesheetByJob (rt : Runtime QueryUserResponse QueryTimesheetResponse)
    (c : astuteClient) (params : QueryTimesheetParams) :
    QueryTimesheetResponse × Option GoError :=
  let res : QueryTimesheetResponse := default
  match c.B.Call (QueryTimesheetByJobCall c params) with
  | .error err => (res, some err)
  | .ok resp =>
    if resp.Code ≠ 200 then
      match rt.ParseFault resp.Data with
      | (_, some _) => (res, none)
      | (result, none) => (res, some (Errorf result.Body.Fault.Faultstring.Text))
    else
      match rt.ParseQueryTimesheetXml resp.Data with
      | (_, some _) => (res, none)
      | (result, none) =>
        let xmlUsers := result.Body.TimesheetQueryResponse.ParmsOut.Results.Text
        match rt.ParseQueryTimesheet xmlUsers with
        | (res, some _) => (res, none)
        | (res, none) => (res, none)

/-- The request part of `QueryTimesheetById` (lines 130-153). -/
def QueryTimesheetByIdCall (c : astuteClient) (id : GoString) : CallArgs :=
  { url := c.AuthParams.ApiUrl
    name := str "TimesheetQuery"
    action := str "urn:TimesheetQuery"
    template := TrimSpace (templateSource timesheetQueryByIdTemplate)
    data := .timesheetById c.AuthParams id }

/-- `QueryTimesheetById` (lines 127-179). -/
def QueryTimesheetById (rt : Runtime QueryUserResponse QueryTimesheetResponse)
    (c : astuteClient) (id : GoString) : QueryTimesheetResponse × Option GoError :=
  let res : QueryTimesheetResponse := default
  match c.B.Call (QueryTimesheetByIdCall c id) with
  | .error err => (res, some err)
  | .ok resp =>
    if resp.Code ≠ 200 then
      match rt.ParseFault resp.Data with
      | (_, some _) => (res, none)
      | (result, none) => (res, some (Errorf result.Body.Fault.Faultstring.Text))
    else
      match rt.ParseQueryTimesheetXml resp.Data with
      | (_, some _) => (res, none)
      | (result, none) =>
        let xmlUsers := result.Body.TimesheetQueryResponse.ParmsOut.Results.Text
        match rt.ParseQueryTimesheet xmlUsers with
        | (res, some _) => (res, none)
        | (res, none) => (res, none)

/-- The break value of a day block (lines 263-276): `"0000"` unless the length of the
input is 1 to 4. -/
def breakTimeOf (BreakTime : GoString) : GoString :=
  if BreakTime.length = 1 then str "000" ++ BreakTime
  else if BreakTime.length = 2 then str "00" ++ BreakTime
  else if BreakTime.length = 3 then str "0" ++ BreakTime
  else if BreakTime.length = 4 then BreakTime
  else str "0000"

/-- `getWeekdayTemplateForTime` (lines 425-447). -/
def getWeekdayTemplateForTime (startTime : Time) : GoString :=
  let weekDay := startTime.Weekday
  match weekDay with
  | 0 => str "sun"
  | 1 => str "mon"
  | 2 => str "tue"
  | 3 => str "wed"
  | 4 => str "thu"
  | 5 => str "fri"
  | 6 => str "sat"
  | _ => str ""

/-- The body of the loop over `params.Days` (lines 258-286): the template data of one
day. -/
def saveTimesheetDay (day : TimesheetDay) : Except Panic SaveTimesheetDayTemplateParams := do
  let st := Split day.StartTime.FormatClock (str ":")
  let st0 ← index st 0
  let st1 ← index st 1
  let startTime := st0 ++ st1
  let et := Split day.EndTime.FormatClock (str ":")
  let et0 ← index et 0
  let et1 ← index et 1
  let endTime := et0 ++ et1
  let breakTime := breakTimeOf day.BreakTime
  pure
    { WeekdayTag := getWeekdayTemplateForTime day.StartTime
      StartTime := startTime
      EndTime := endTime
      BreakTime := breakTime
      Notes := EscapeText day.Notes }

/-- The loop over `params.Days` (lines 253-291): `days` grows by one entry per day and
`tsStartTime` is replaced by every start time that is before it. -/
def saveTimesheetLoop :
    List TimesheetDay → List SaveTimesheetDayTemplateParams → Time →
      Except Panic (List SaveTimesheetDayTemplateParams × Time)
  | [], days, tsStartTime => .ok (days, tsStartTime)
  | day :: rest, days, tsStartTime =>
    match saveTimesheetDay day with
    | .error p => .error p
    | .ok d =>
      saveTimesheetLoop rest (days ++ [d])
        (if day.StartTime.Before tsStartTime then day.StartTime else tsStartTime)

/-- The request part of `SaveTimesheet` (lines 188-317): the arguments of its call of
`Backend.Call`, or the panic of `params.Days[0]` on an empty list. -/
def SaveTimesheetCall (rt : Runtime QueryUserResponse QueryTimesheetResponse)
    (c : astuteClient) (params : SaveTimesheetParams) : Except Panic CallArgs :=
  if params.DidNotWork then
    .ok
      { url := c.AuthParams.ApiUrl
        name := str "TimesheetSave"
        action := str "urn:TimesheetSave"
        template := TrimSpace (templateSource didNotWorkTemplate)
        data := .didNotWork c.AuthParams params.UserParams params.TSID rt.uuid }
  else
    match index params.Days 0 with
    | .error p => .error p
    | .ok first =>
      match saveTimesheetLoop params.Days [] first.StartTime with
      | .error p => .error p
      | .ok (days, tsStartTime) =>
        let submissionTime :=
          if params.Submit && !params.SubmissionTime.IsZero then params.SubmissionTime
          else rt.now
        .ok
          { url := c.AuthParams.ApiUrl
            name := str "TimesheetSave"
            action := str "urn:TimesheetSave"
            template := TrimSpace (templateSource saveTimesheetTemplate)
            data := .save c.AuthParams params.UserParams params.TSID rt.uuid
              (rt.FormatDate tsStartTime) days params.Submit (rt.TimeString submissionTime) }

/-- `SaveTimesheet` (lines 181-350). -/
def SaveTimesheet (rt : Runtime QueryUserResponse QueryTimesheetResponse) (c : astuteClient)
    (params : SaveTimesheetParams) : Except Panic (SaveTimesheetResponse × Option GoError) :=
  let res : SaveTimesheetResponse := ⟨[]⟩
  match SaveTimesheetCall rt c params with
  | .error p => .error p
  | .ok args =>
    match c.B.Call args with
    | .error err => .ok (res, some err)
    | .ok resp =>
      if resp.Code ≠ 200 then
        match rt.ParseFault resp.Data with
        | (_, some _) => .ok (res, none)
        | (result, none) => .ok (res, some (Errorf result.Body.Fault.Faultstring.Text))
      else
        match rt.ParseSaveTimesheetXml resp.Data with
        | (_, some _) => .ok (res, none)
        | (result, none) =>
          let resText := result.Body.TimesheetSaveResponse.ParmsOut.Results.Text
          if !Contains resText (str "TSID:") then .ok (res, some (Errorf resText))
          else
            match sliceFrom resText 21 with
            | .error p => .error p
            | .ok tsId => .ok ({ TimesheetId := tsId }, none)

/-- The request part of `SubmitTimesheet` (lines 355-391). -/
def SubmitTimesheetCall (rt : Runtime QueryUserResponse QueryTimesheetResponse)
    (c : astuteClient) (params : SubmitTimesheetParams) : CallArgs :=
  { url := c.AuthParams.ApiUrl
    name := str "TimesheetSave"
    action := str "urn:TimesheetSave"
    template := TrimSpace (templateSource submitTimesheetTemplate)
    data := .submit c.AuthParams params.UserParams params.TSID rt.uuid
      (rt.FormatDate params.StartTime) (rt.TimeString params.SubmissionTime) }

/-- `SubmitTimesheet` (lines 352-422). -/
def SubmitTimesheet (rt : Runtime QueryUserResponse QueryTimesheetResponse)
    (c : astuteClient) (params : SubmitTimesheetParams) :
    Except Panic (SaveTimesheetResponse × Option GoError) :=
  let res : SaveTimesheetResponse := ⟨[]⟩
  match c.B.Call (SubmitTimesheetCall rt c params) with
  | .error err => .ok (res, some err)
  | .ok resp =>
    if resp.Code ≠ 200 then
      match rt.ParseFault resp.Data with
      | (_, some _) => .ok (res, none)
      | (result, none) => .ok (res, some (Errorf result.Body.Fault.Faultstring.Text))
    else
      match rt.ParseSaveTimesheetXml resp.Data with
      | (_, some _) => .ok (res, none)
      | (result, none) =>
        let resText := result.Body.TimesheetSaveResponse.ParmsOut.Results.Text
        if !Contains resText (str "TSID:") then .ok (res, some (Errorf resText))
        else
          match sliceFrom resText 21 with
          | .error p => .error p
          | .ok tsId => .ok ({ TimesheetId := tsId }, none)

end Operations

/-! ## Definitions used to state the properties, and example inputs -/

/-- The hours and minutes of a time as four digits: `HHMM`. -/
def HHMM (t : Time) : GoString := appendInt2 t.Clock.1 ++ appendInt2 t.Clock.2.1

/-- The weekday tags in the order of Go's `time.Weekday`, Sunday first. -/
def weekdayTags : List GoString :=
  [str "sun", str "mon", str "tue", str "wed", str "thu", str "fri", str "sat"]

/-- A time that falls on the given day of the week (days counted from Sunday,
1970-01-04). -/
def timeOnWeekday (w : Nat) : Time := { unix := (3 + (w : Int)) * 86400, nsec := 0, offset := 0 }

/-- The per-day block of the full save request: the four elements `tag_start`,
`tag_finish`, `tag_break` and `tag_notes`, in this order. -/
def dayBlock (d : SaveTimesheetDayTemplateParams) : GoString :=
  str "\n\t\t\t<" ++ d.WeekdayTag ++ str "_start>" ++ d.StartTime ++
    str "</" ++ d.WeekdayTag ++ str "_start>\n\t\t\t<" ++ d.WeekdayTag ++ str "_finish>" ++
    d.EndTime ++ str "</" ++ d.WeekdayTag ++ str "_finish>\n\t\t\t<" ++ d.WeekdayTag ++
    str "_break>" ++ d.BreakTime ++ str "</" ++ d.WeekdayTag ++ str "_break>\n\t\t\t<" ++
    d.WeekdayTag ++ str "_notes>" ++ d.Notes ++ str "</" ++ d.WeekdayTag ++
    str "_notes>\n\t\t"

/-- The full save request up to and including its `date` element. -/
def saveEnvelopeHead (auth : AuthParams) (user : UserParams)
    (TSID ApiTransactionId TimesheetDate : GoString) : GoString :=
  str "<soap:Envelope xmlns:soap=\"http://schemas.xmlsoap.org/soap/envelope/\" xmlns:tns=\"urn:tsoIntegrator\" xmlns:xsi=\"http://www.w3.org/2001/XMLSchema-instance\">\n<soap:Body>\n<q1:TimesheetSave xmlns:q1=\"urn:TimesheetSave\">\n  <tns:timesheetSave>\n    <api_key>" ++
    auth.ApiKey ++ str "</api_key>\n    <api_username>" ++ auth.ApiUsername ++
    str "</api_username>\n    <api_password>" ++ auth.ApiPassword ++
    str "</api_password>\n    <api_transaction_id>" ++ ApiTransactionId ++
    str "</api_transaction_id>\n    <UID>" ++ user.UID ++ str "</UID>\n    <user_id>" ++
    user.UserId ++ str "</user_id>\n\t<TSID>" ++ TSID ++ str "</TSID>\n    <date>" ++
    TimesheetDate ++ str "</date>\n\t\t"

/-- The `complete` element of the full save request: present when submitting. -/
def completeElement (Submit : Bool) (SubmissionTime : GoString) : GoString :=
  if Submit then str "\n\t\t\t<complete>" ++ SubmissionTime ++ str "</complete>\n\t\t" else []

/-- The end of the full save request. -/
def saveEnvelopeTail : GoString :=
  str "\n  </tns:timesheetSave>\n</q1:TimesheetSave>\n</soap:Body>\n</soap:Envelope>"

/-- The did-not-work request. -/
def didNotWorkEnvelope (auth : AuthParams) (user : UserParams)
    (TSID ApiTransactionId : GoString) : GoString :=
  str "<soap:Envelope xmlns:soap=\"http://schemas.xmlsoap.org/soap/envelope/\" xmlns:tns=\"urn:tsoIntegrator\" xmlns:xsi=\"http://www.w3.org/2001/XMLSchema-instance\">\n<soap:Body>\n<q1:TimesheetSave xmlns:q1=\"urn:TimesheetSave\">\n  <tns:timesheetSave>\n    <api_key>" ++
    auth.ApiKey ++ str "</api_key>\n    <api_username>" ++ auth.ApiUsername ++
    str "</api_username>\n    <api_password>" ++ auth.ApiPassword ++
    str "</api_password>\n    <api_transaction_id>" ++ ApiTransactionId ++
    str "</api_transaction_id>\n    <UID>" ++ user.UID ++ str "</UID>\n    <user_id>" ++
    user.UserId ++ str "</user_id>\n\t\t<TSID>" ++ TSID ++
    str "</TSID>\n\t\t<did_not_work>1</did_not_work>\n  </tns:timesheetSave>\n</q1:TimesheetSave>\n</soap:Body>\n</soap:Envelope>"

/-- The template data of one day: weekday tag of the start, `HHMM` start and end, break
value and escaped notes. -/
def dayTemplateData (day : TimesheetDay) : SaveTimesheetDayTemplateParams :=
  { WeekdayTag := getWeekdayTemplateForTime day.StartTime
    StartTime := HHMM day.StartTime
    EndTime := HHMM day.EndTime
    BreakTime := breakTimeOf day.BreakTime
    Notes := EscapeText day.Notes }

/-- The start time the loop of `SaveTimesheet` ends with. -/
def earliestStart : List TimesheetDay → Time → Time
  | [], tsStartTime => tsStartTime
  | day :: rest, tsStartTime =>
    earliestStart rest (if day.StartTime.Before tsStartTime then day.StartTime else tsStartTime)

/-- A backend that answers every call with the given response. -/
def constBackend (resp : ClientResponse) : Backend := { Call := fun _ => .ok resp }

/-- Decimal digits of a number, as bytes. -/
def decimal (n : Nat) : GoString := (Nat.toDigits 10 n).map Char.toNat

/-- A runtime for examples. The decoders give the stated outcomes whatever the body; the
transaction id and the clock are fixed; the text forms of a time are stood in for by the
decimal Unix seconds. -/
def exampleRuntime (fault : faultResponse × Option GoError)
    (results : GoString) (outerErr innerErr : Option GoError) : Runtime Unit Unit :=
  { ParseFault := fun _ => fault
    ParseQueryUserXml := fun _ => (⟨⟨⟨⟨⟨results⟩⟩⟩⟩⟩, outerErr)
    ParseQueryTimesheetXml := fun _ => (⟨⟨⟨⟨⟨results⟩⟩⟩⟩⟩, outerErr)
    ParseSaveTimesheetXml := fun _ => (⟨⟨⟨⟨⟨results⟩⟩⟩⟩⟩, outerErr)
    ParseQueryUser := fun _ => ((), innerErr)
    ParseQueryTimesheet := fun _ => ((), innerErr)
    uuid := str "0b2f7a52-5c1e-4d0e-9a57-3f0c8f1f6a11"
    now := ⟨1730800000, 0, 0⟩
    FormatDate := fun t => str "date@" ++ decimal t.unix.toNat
    TimeString := fun t => str "time@" ++ decimal t.unix.toNat }

/-- A runtime for examples whose decoders all succeed with empty texts. -/
def plainRuntime : Runtime Unit Unit := exampleRuntime (⟨⟨⟨⟨[]⟩⟩⟩⟩, none) [] none none

def exampleAuth : AuthParams :=
  { ApiUrl := str "https://astute.example/soap", ApiKey := str "key",
    ApiUsername := str "api", ApiPassword := str "secret" }

/-- A client whose backend answers with status 200 and an empty body. -/
def exampleClient : astuteClient := { B := constBackend ⟨200, []⟩, AuthParams := exampleAuth }

/-- Monday 2024-11-04, 09:00 to 17:30 UTC, then Sunday 2024-11-03, 10:15 to 14:00 UTC. -/
def exampleDays : List TimesheetDay :=
  [ { StartTime := ⟨1730710800, 0, 0⟩, EndTime := ⟨1730741400, 0, 0⟩, BreakTime := str "30",
      Notes := str "on site" },
    { StartTime := ⟨1730628900, 0, 0⟩, EndTime := ⟨1730642400, 0, 0⟩, BreakTime := str "5",
      Notes := str "R&D" } ]

/-- A timesheet with two days that is submitted at an explicit time. -/
def exampleSave : SaveTimesheetParams :=
  { UserParams := ⟨str "1001", str "jdoe"⟩, TSID := str "77", Days := exampleDays,
    DidNotWork := false, Submit := true, SubmissionTime := ⟨1730750000, 0, 0⟩ }

/-- A did-not-work timesheet without days. -/
def exampleDidNotWork : SaveTimesheetParams :=
  { UserParams := ⟨str "1001", str "jdoe"⟩, TSID := str "77", Days := [],
    DidNotWork := true, Submit := false, SubmissionTime := ⟨-62135596800, 0, 0⟩ }

/-- A runtime whose fault decoder succeeds with the given fault string. -/
def faultRuntime (text : GoString) : Runtime Unit Unit :=
  exampleRuntime (⟨⟨⟨⟨text⟩⟩⟩⟩, none) [] none none

/-- A runtime whose envelope decoders succeed with the given `Results` text. -/
def resultsRuntime (text : GoString) : Runtime Unit Unit :=
  exampleRuntime (⟨⟨⟨⟨[]⟩⟩⟩⟩, none) text none none

/-- A runtime all of whose decoders fail. -/
def failingRuntime : Runtime Unit Unit :=
  exampleRuntime (⟨⟨⟨⟨[]⟩⟩⟩⟩, some ⟨str "EOF"⟩) [] (some ⟨str "EOF"⟩) (some ⟨str "EOF"⟩)

/-- A runtime whose envelope decoders succeed and whose decoders of the `Results` text
fail. -/
def innerFailingRuntime : Runtime Unit Unit :=
  exampleRuntime (⟨⟨⟨⟨[]⟩⟩⟩⟩, none) (str "<Users>") none (some ⟨str "unexpected EOF"⟩)

/-- A client whose backend answers with status 500 and an empty body. -/
def faultClient : astuteClient := { B := constBackend ⟨500, []⟩, AuthParams := exampleAuth }

def exampleSubmit : SubmitTimesheetParams :=
  { UserParams := ⟨str "1001", str "jdoe"⟩, TSID := str "77",
    StartTime := ⟨1730628900, 0, 0⟩, SubmissionTime := ⟨1730750000, 0, 0⟩ }

/-! ## Properties -/

/-- Two digits and a colon, three times, split at the colons into the three pairs. -/
theorem Split_clock (a b c d e f : Nat) (ha : a ≠ 58) (hb : b ≠ 58) (hc : c ≠ 58)
    (hd : d ≠ 58) (he : e ≠ 58) (hf : f ≠ 58) :
    Split [a, b, 58, c, d, 58, e, f] [58] = [[a, b], [c, d], [e, f]] := by
  simp [Split, splitLoop, HasPrefix, ha, hb, hc, hd, he, hf]

theorem Split_FormatClock (t : Time) :
    Split t.FormatClock (str ":") =
      [appendInt2 t.Clock.1, appendInt2 t.Clock.2.1, appendInt2 t.Clock.2.2] := by
  have hcolon : str ":" = [58] := by decide
  have h1 : t.Clock.1 < 24 := by
    simp only [Time.Clock]
    omega
  have h2 : t.Clock.2.1 < 60 := by
    simp only [Time.Clock]
    omega
  have h3 : t.Clock.2.2 < 60 := by
    simp only [Time.Clock]
    omega
  simp only [Time.FormatClock, hcolon, appendInt2, List.cons_append, List.nil_append]
  apply Split_clock <;> omega

/-- The loop body never panics: the template data of a day is its weekday tag, the `HHMM`
forms of its start and end, its break value and its escaped notes. -/
theorem saveTimesheetDay_eq (day : TimesheetDay) :
    saveTimesheetDay day = .ok
      { WeekdayTag := getWeekdayTemplateForTime day.StartTime
        StartTime := HHMM day.StartTime
        EndTime := HHMM day.EndTime
        BreakTime := breakTimeOf day.BreakTime
        Notes := EscapeText day.Notes } := by
  simp [saveTimesheetDay, Split_FormatClock, index, HHMM, bind, Except.bind, pure, Except.pure]

theorem Weekday_lt (t : Time) : t.Weekday < 7 := by
  simp only [Time.Weekday]
  omega

/-- C4: for every break-duration string of digits with length 1 to 4, the break value that
`SaveTimesheet` puts in the day block has length exactly 4 and is the input left-padded
with the byte `0`: it ends with the input and every byte before it is `0`; an input of
length 4 is kept as it is. -/
theorem breakTime_padded (day : TimesheetDay)
    (_hdigits : ∀ c ∈ day.BreakTime, 48 ≤ c ∧ c ≤ 57)
    (hlen : 1 ≤ day.BreakTime.length ∧ day.BreakTime.length ≤ 4) :
    ∃ d, saveTimesheetDay day = .ok d ∧ d.BreakTime.length = 4 ∧
      d.BreakTime = List.replicate (4 - day.BreakTime.length) 48 ++ day.BreakTime ∧
      (day.BreakTime.length = 4 → d.BreakTime = day.BreakTime) := by
  refine ⟨_, saveTimesheetDay_eq day, ?_⟩
  have h0 : str "0" = [48] := by decide
  have h00 : str "00" = [48, 48] := by decide
  have h000 : str "000" = [48, 48, 48] := by decide
  obtain ⟨hlo, hhi⟩ := hlen
  have hcases : day.BreakTime.length = 1 ∨ day.BreakTime.length = 2 ∨
      day.BreakTime.length = 3 ∨ day.BreakTime.length = 4 := by omega
  rcases hcases with h | h | h | h <;>
    simp [breakTimeOf, h, h0, h00, h000, List.replicate]

/-- C4 at the break duration `30`: the day block carries `0030`. -/
theorem breakTime_padded_witness :
    ∃ d, saveTimesheetDay ⟨⟨1730539800, 0, 0⟩, ⟨1730570400, 0, 0⟩, str "30", []⟩ = .ok d ∧
      d.BreakTime.length = 4 ∧
      d.BreakTime = List.replicate (4 - (str "30").length) 48 ++ str "30" ∧
      ((str "30").length = 4 → d.BreakTime = str "30") :=
  breakTime_padded ⟨⟨1730539800, 0, 0⟩, ⟨1730570400, 0, 0⟩, str "30", []⟩
    (by decide) (by decide)

/-- C5: `getWeekdayTemplateForTime` depends on the time only through its day of the week,
which is one of the seven weekdays; it maps Sunday to `sun`, Monday to `mon`, and so on to
Saturday and `sat`; it is injective on the weekdays; its image is exactly the seven tags;
and it never returns the empty tag. -/
theorem getWeekdayTemplateForTime_bijective :
    (∀ t : Time, t.Weekday < 7 ∧ weekdayTags[t.Weekday]? = some (getWeekdayTemplateForTime t)) ∧
    (∀ t u : Time, t.Weekday = u.Weekday →
      getWeekdayTemplateForTime t = getWeekdayTemplateForTime u) ∧
    (∀ t u : Time, getWeekdayTemplateForTime t = getWeekdayTemplateForTime u →
      t.Weekday = u.Weekday) ∧
    (∀ tag : GoString, tag ∈ weekdayTags ↔ ∃ t : Time, getWeekdayTemplateForTime t = tag) ∧
    (∀ t : Time, getWeekdayTemplateForTime t ≠ str "") := by
  have key : ∀ t : Time, t.Weekday < 7 ∧
      weekdayTags[t.Weekday]? = some (getWeekdayTemplateForTime t) := by
    intro t
    have h := Weekday_lt t
    refine ⟨h, ?_⟩
    unfold getWeekdayTemplateForTime
    generalize t.Weekday = w at h
    interval_cases w <;> rfl
  have inj : ∀ i j : Nat, i < 7 → j < 7 → weekdayTags[i]? = weekdayTags[j]? → i = j := by
    intro i j hi hj
    interval_cases i <;> interval_cases j <;> decide
  refine ⟨key, ?_, ?_, ?_, ?_⟩
  · intro t u h
    simp only [getWeekdayTemplateForTime, h]
  · intro t u h
    apply inj _ _ (key t).1 (key u).1
    rw [(key t).2, (key u).2, h]
  · intro tag
    constructor
    · intro hmem
      obtain ⟨i, hi, rfl⟩ := List.getElem_of_mem hmem
      have hi7 : i < 7 := hi
      refine ⟨timeOnWeekday i, ?_⟩
      have hw : (timeOnWeekday i).Weekday = i := by
        simp only [Time.Weekday, timeOnWeekday]
        omega
      have h := (key (timeOnWeekday i)).2
      rw [hw, List.getElem?_eq_getElem hi] at h
      exact (Option.some.inj h).symm
    · rintro ⟨t, rfl⟩
      exact List.getElem?_mem (key t).2
  · intro t hempty
    have h := (key t).2
    have hlt := (key t).1
    rw [hempty] at h
    generalize t.Weekday = w at h hlt
    interval_cases w <;> revert h <;> decide

/-! ### Templates -/

set_option maxRecDepth 100000 in
theorem TrimSpace_didNotWorkTemplate :
    TrimSpace (templateSource didNotWorkTemplate) = templateSource didNotWorkTemplate := by
  decide

set_option maxRecDepth 100000 in
theorem TrimSpace_saveTimesheetTemplate :
    TrimSpace (templateSource saveTimesheetTemplate) = templateSource saveTimesheetTemplate := by
  decide

theorem saveTimesheetLoop_eq (days : List TimesheetDay)
    (acc : List SaveTimesheetDayTemplateParams) (ts : Time) :
    saveTimesheetLoop days acc ts = .ok (acc ++ days.map dayTemplateData, earliestStart days ts) := by
  induction days generalizing acc ts with
  | nil => simp [saveTimesheetLoop, earliestStart]
  | cons day rest ih =>
    simp [saveTimesheetLoop, saveTimesheetDay_eq, ih, earliestStart, dayTemplateData]

theorem notBefore_trans (a b c : Time) (hab : a.Before b = false) (hbc : b.Before c = false) :
    a.Before c = false := by
  simp only [Time.Before, Bool.or_eq_false_iff, Bool.and_eq_false_iff, decide_eq_false_iff_not]
    at *
  omega

theorem notBefore_self (a : Time) : a.Before a = false := by
  simp [Time.Before]

theorem notBefore_of_Before (a b : Time) (h : a.Before b = true) : b.Before a = false := by
  simp only [Time.Before, Bool.or_eq_false_iff, Bool.and_eq_false_iff, decide_eq_false_iff_not,
    Bool.or_eq_true, Bool.and_eq_true, decide_eq_true_eq] at *
  omega

/-- The start time the loop ends with is the initial one or the start of a day, and neither
the initial one nor the start of any day is before it. -/
theorem earliestStart_spec (days : List TimesheetDay) (ts : Time) :
    (earliestStart days ts = ts ∨ ∃ d ∈ days, earliestStart days ts = d.StartTime) ∧
      ts.Before (earliestStart days ts) = false ∧
      ∀ d ∈ days, d.StartTime.Before (earliestStart days ts) = false := by
  induction days generalizing ts with
  | nil => simp [earliestStart, notBefore_self]
  | cons day rest ih =>
    simp only [earliestStart]
    obtain ⟨hmem, hts, hall⟩ :=
      ih (if day.StartTime.Before ts then day.StartTime else ts)
    by_cases hb : day.StartTime.Before ts = true
    · simp only [hb, if_true] at hmem hts hall ⊢
      refine ⟨?_, ?_, ?_⟩
      · rcases hmem with h | ⟨d, hd, h⟩
        · exact Or.inr ⟨day, List.mem_cons_self _ _, h⟩
        · exact Or.inr ⟨d, List.mem_cons_of_mem _ hd, h⟩
      · exact notBefore_trans _ _ _ (notBefore_of_Before _ _ hb) hts
      · intro d hd
        rcases List.mem_cons.mp hd with rfl | hd
        · exact hts
        · exact hall d hd
    · have hb2 : day.StartTime.Before ts = false := by simpa using hb
      simp only [hb2, Bool.false_eq_true, if_false] at hmem hts hall ⊢
      refine ⟨?_, hts, ?_⟩
      · rcases hmem with h | ⟨d, hd, h⟩
        · exact Or.inl h
        · exact Or.inr ⟨d, List.mem_cons_of_mem _ hd, h⟩
      · intro d hd
        rcases List.mem_cons.mp hd with rfl | hd
        · exact notBefore_trans _ _ _ hb2 hts
        · exact hall d hd

/-- The request part of `SaveTimesheet` for a timesheet with days. -/
theorem SaveTimesheetCall_full {QU QT : Type}
    (rt : Runtime QU QT) (c : astuteClient) (p : SaveTimesheetParams)
    (hdnw : p.DidNotWork = false) (first : TimesheetDay) (rest : List TimesheetDay)
    (hdays : p.Days = first :: rest) :
    SaveTimesheetCall rt c p = .ok
      { url := c.AuthParams.ApiUrl
        name := str "TimesheetSave"
        action := str "urn:TimesheetSave"
        template := templateSource saveTimesheetTemplate
        data := .save c.AuthParams p.UserParams p.TSID rt.uuid
          (rt.FormatDate (earliestStart p.Days first.StartTime)) (p.Days.map dayTemplateData)
          p.Submit
          (rt.TimeString
            (if p.Submit && !p.SubmissionTime.IsZero then p.SubmissionTime else rt.now)) } := by
  simp [SaveTimesheetCall, hdnw, hdays, index, saveTimesheetLoop_eq,
    TrimSpace_saveTimesheetTemplate]

theorem execRange_dayBlock (days : List SaveTimesheetDayTemplateParams) :
    execRange [.text "\n\t\t\t<", .field .WeekdayTag, .text "_start>", .field .StartTime, .text "</", .field .WeekdayTag, .text "_start>\n\t\t\t<", .field .WeekdayTag, .text "_finish>", .field .EndTime, .text "</", .field .WeekdayTag, .text "_finish>\n\t\t\t<", .field .WeekdayTag, .text "_break>", .field .BreakTime, .text "</", .field .WeekdayTag, .text "_break>\n\t\t\t<", .field .WeekdayTag, .text "_notes>", .field .Notes, .text "</", .field .WeekdayTag, .text "_notes>\n\t\t"] days =
      some ((days.map dayBlock).flatten) := by
  induction days with
  | nil => rfl
  | cons d ds ih =>
    simp only [execRange, ih, execLeaves, execLeaf, SaveTimesheetDayTemplateParams.field,
      List.map_cons, List.flatten_cons, dayBlock, List.append_assoc, List.append_nil]

/-- Rendering the full save template gives the head, one block per day in order, the
`complete` element when submitting, and the tail. -/
theorem render_saveTimesheetTemplate (auth : AuthParams) (user : UserParams)
    (TSID txid date : GoString) (days : List SaveTimesheetDayTemplateParams) (submit : Bool)
    (sub : GoString) :
    render saveTimesheetTemplate (.save auth user TSID txid date days submit sub) =
      some (saveEnvelopeHead auth user TSID txid date ++ (days.map dayBlock).flatten ++
        str "\n\t\t" ++ completeElement submit sub ++ saveEnvelopeTail) := by
  cases submit <;>
  simp only [render, saveTimesheetTemplate, execNode, execLeaf, execLeaves, TemplateData.field,
    AuthParams.field, UserParams.field, execRange_dayBlock, saveEnvelopeHead, completeElement,
    saveEnvelopeTail, List.append_assoc, List.append_nil, List.nil_append, if_true, if_false,
    Bool.false_eq_true]

/-- Rendering the did-not-work template. -/
theorem render_didNotWorkTemplate (auth : AuthParams) (user : UserParams)
    (TSID txid : GoString) :
    render didNotWorkTemplate (.didNotWork auth user TSID txid) =
      some (didNotWorkEnvelope auth user TSID txid) := by
  simp only [render, didNotWorkTemplate, execNode, execLeaf, TemplateData.field,
    AuthParams.field, UserParams.field, didNotWorkEnvelope, List.append_assoc, List.append_nil]

/-! ### The request of `SaveTimesheet` -/

/-- C6: for a timesheet with `DidNotWork` false and a non-empty list of N days, the
per-day template data has N entries, the i-th built from the i-th input day (weekday tag
of its start, `HHMM` start and end, break value, escaped notes), and the rendered request
has, after its head, exactly one block per entry, in the same order, each block being the
four elements `tag_start`, `tag_finish`, `tag_break`, `tag_notes` in this order. -/
theorem saveTimesheet_day_blocks {QU QT : Type} (rt : Runtime QU QT) (c : astuteClient)
    (p : SaveTimesheetParams) (hdnw : p.DidNotWork = false) (hne : p.Days ≠ []) :
    ∃ args date days sub,
      SaveTimesheetCall rt c p = .ok args ∧
      args.template = templateSource saveTimesheetTemplate ∧
      args.data = .save c.AuthParams p.UserParams p.TSID rt.uuid date days p.Submit sub ∧
      days.length = p.Days.length ∧
      (∀ (i : Nat) (day : TimesheetDay), p.Days[i]? = some day →
        days[i]? = some
          ({ WeekdayTag := getWeekdayTemplateForTime day.StartTime
             StartTime := HHMM day.StartTime
             EndTime := HHMM day.EndTime
             BreakTime := breakTimeOf day.BreakTime
             Notes := EscapeText day.Notes } : SaveTimesheetDayTemplateParams)) ∧
      (days.map dayBlock).length = p.Days.length ∧
      (∀ (i : Nat) (day : TimesheetDay), p.Days[i]? = some day →
        (days.map dayBlock)[i]? = some (dayBlock (dayTemplateData day))) ∧
      render saveTimesheetTemplate args.data =
        some (saveEnvelopeHead c.AuthParams p.UserParams p.TSID rt.uuid date ++
          (days.map dayBlock).flatten ++ str "\n\t\t" ++ completeElement p.Submit sub ++
          saveEnvelopeTail) := by
  obtain ⟨first, rest, hdays⟩ := List.exists_cons_of_ne_nil hne
  refine ⟨_, _, p.Days.map dayTemplateData, _, SaveTimesheetCall_full rt c p hdnw first rest hdays,
    rfl, rfl, by simp, ?_, by simp, ?_, render_saveTimesheetTemplate _ _ _ _ _ _ _ _⟩
  · intro i day h
    simp [List.getElem?_map, h, dayTemplateData]
  · intro i day h
    simp [List.getElem?_map, h]

/-- C6 on the two-day example. -/
theorem saveTimesheet_day_blocks_witness :
    exampleSave.DidNotWork = false ∧ exampleSave.Days ≠ [] ∧
    ∃ args date days sub,
      SaveTimesheetCall plainRuntime exampleClient exampleSave = .ok args ∧
      args.template = templateSource saveTimesheetTemplate ∧
      args.data = .save exampleClient.AuthParams exampleSave.UserParams exampleSave.TSID
        plainRuntime.uuid date days exampleSave.Submit sub ∧
      days.length = exampleSave.Days.length ∧
      (∀ (i : Nat) (day : TimesheetDay), exampleSave.Days[i]? = some day →
        days[i]? = some
          ({ WeekdayTag := getWeekdayTemplateForTime day.StartTime
             StartTime := HHMM day.StartTime
             EndTime := HHMM day.EndTime
             BreakTime := breakTimeOf day.BreakTime
             Notes := EscapeText day.Notes } : SaveTimesheetDayTemplateParams)) ∧
      (days.map dayBlock).length = exampleSave.Days.length ∧
      (∀ (i : Nat) (day : TimesheetDay), exampleSave.Days[i]? = some day →
        (days.map dayBlock)[i]? = some (dayBlock (dayTemplateData day))) ∧
      render saveTimesheetTemplate args.data =
        some (saveEnvelopeHead exampleClient.AuthParams exampleSave.UserParams exampleSave.TSID
          plainRuntime.uuid date ++
          (days.map dayBlock).flatten ++ str "\n\t\t" ++ completeElement exampleSave.Submit sub ++
          saveEnvelopeTail) :=
  ⟨by decide, by decide,
    saveTimesheet_day_blocks plainRuntime exampleClient exampleSave (by decide) (by decide)⟩

/-- The template data of the two-day example: Monday 0900 to 1730 with break 0030, then
Sunday 1015 to 1400 with break 0005 and escaped notes. -/
theorem exampleDays_templateData :
    exampleDays.map dayTemplateData =
      [ ⟨str "mon", str "0900", str "1730", str "0030", str "on site"⟩,
        ⟨str "sun", str "1015", str "1400", str "0005", str "R&amp;D"⟩ ] := by
  decide

set_option maxRecDepth 100000 in
/-- The text of the did-not-work template has no `date` element, none of the four day
elements, no `range` and no `complete` element; it has the `did_not_work` element with
value 1 and places for UID, user id and TSID. -/
theorem didNotWorkTemplate_text :
    Contains (templateSource didNotWorkTemplate) (str "<date>") = false ∧
    Contains (templateSource didNotWorkTemplate) (str "_start>") = false ∧
    Contains (templateSource didNotWorkTemplate) (str "_finish>") = false ∧
    Contains (templateSource didNotWorkTemplate) (str "_break>") = false ∧
    Contains (templateSource didNotWorkTemplate) (str "_notes>") = false ∧
    Contains (templateSource didNotWorkTemplate) (str "range") = false ∧
    Contains (templateSource didNotWorkTemplate) (str "<complete>") = false ∧
    Contains (templateSource didNotWorkTemplate) (str "<did_not_work>1</did_not_work>") = true ∧
    Contains (templateSource didNotWorkTemplate) (str "<UID>\x7b\x7b.UID\x7d\x7d</UID>") = true ∧
    Contains (templateSource didNotWorkTemplate)
      (str "<user_id>\x7b\x7b.UserId\x7d\x7d</user_id>") = true ∧
    Contains (templateSource didNotWorkTemplate) (str "<TSID>\x7b\x7b.TSID\x7d\x7d</TSID>") = true := by
  decide

/-- C7: when `DidNotWork` is true, the request `SaveTimesheet` makes does not depend on
`Days`, `Submit` or `SubmissionTime`: two parameter values that agree on `UserParams` and
`TSID` give, for the same client, transaction id and clock, the same call (template and
data) and the same result. The call is made also when `Days` is empty; its template has no
`date` element and no day block, and the rendered envelope carries the UID, the user id,
the TSID and `did_not_work` set to 1. -/
theorem didNotWork_request {QU QT : Type} (rt : Runtime QU QT) (c : astuteClient)
    (p q : SaveTimesheetParams) (hp : p.DidNotWork = true) (hq : q.DidNotWork = true)
    (huser : p.UserParams = q.UserParams) (htsid : p.TSID = q.TSID) :
    SaveTimesheetCall rt c p = SaveTimesheetCall rt c q ∧
    SaveTimesheet rt c p = SaveTimesheet rt c q ∧
    ∃ args,
      SaveTimesheetCall rt c p = .ok args ∧
      args.template = templateSource didNotWorkTemplate ∧
      args.data = .didNotWork c.AuthParams p.UserParams p.TSID rt.uuid ∧
      Contains args.template (str "<date>") = false ∧
      Contains args.template (str "_start>") = false ∧
      Contains args.template (str "range") = false ∧
      render didNotWorkTemplate args.data =
        some (didNotWorkEnvelope c.AuthParams p.UserParams p.TSID rt.uuid) := by
  have hcall : ∀ r : SaveTimesheetParams, r.DidNotWork = true →
      SaveTimesheetCall rt c r = .ok
        { url := c.AuthParams.ApiUrl
          name := str "TimesheetSave"
          action := str "urn:TimesheetSave"
          template := templateSource didNotWorkTemplate
          data := .didNotWork c.AuthParams r.UserParams r.TSID rt.uuid } := by
    intro r hr
    simp [SaveTimesheetCall, hr, TrimSpace_didNotWorkTemplate]
  have heq : SaveTimesheetCall rt c p = SaveTimesheetCall rt c q := by
    rw [hcall p hp, hcall q hq, huser, htsid]
  refine ⟨heq, ?_, _, hcall p hp, rfl, rfl, didNotWorkTemplate_text.1,
    didNotWorkTemplate_text.2.1, didNotWorkTemplate_text.2.2.2.2.2.1,
    render_didNotWorkTemplate _ _ _ _⟩
  simp only [SaveTimesheet, heq]

/-- C7 on a did-not-work timesheet without days and one with the two example days, a
submit flag and a submission time. -/
theorem didNotWork_request_witness :
    exampleDidNotWork.DidNotWork = true ∧
    { exampleSave with DidNotWork := true }.DidNotWork = true ∧
    exampleDidNotWork.Days = [] ∧
    SaveTimesheetCall plainRuntime exampleClient exampleDidNotWork =
      SaveTimesheetCall plainRuntime exampleClient { exampleSave with DidNotWork := true } ∧
    SaveTimesheet plainRuntime exampleClient exampleDidNotWork =
      SaveTimesheet plainRuntime exampleClient { exampleSave with DidNotWork := true } :=
  have h := didNotWork_request plainRuntime exampleClient exampleDidNotWork
    { exampleSave with DidNotWork := true } (by decide) (by decide) (by decide) (by decide)
  ⟨by decide, by decide, by decide, h.1, h.2.1⟩

/-- C8: for a timesheet with `DidNotWork` false and a non-empty list of days, the date
`SaveTimesheet` sends is the `2006-01-02` form of a start time that is the start of one of
the days and that no start of a day is before. -/
theorem timesheetDate_earliest {QU QT : Type} (rt : Runtime QU QT) (c : astuteClient)
    (p : SaveTimesheetParams) (hdnw : p.DidNotWork = false) (hne : p.Days ≠ []) :
    ∃ args tsStartTime days sub,
      SaveTimesheetCall rt c p = .ok args ∧
      args.data = .save c.AuthParams p.UserParams p.TSID rt.uuid (rt.FormatDate tsStartTime)
        days p.Submit sub ∧
      (∃ day ∈ p.Days, tsStartTime = day.StartTime) ∧
      (∀ day ∈ p.Days, day.StartTime.Before tsStartTime = false) ∧
      render saveTimesheetTemplate args.data =
        some (saveEnvelopeHead c.AuthParams p.UserParams p.TSID rt.uuid
            (rt.FormatDate tsStartTime) ++
          (days.map dayBlock).flatten ++ str "\n\t\t" ++ completeElement p.Submit sub ++
          saveEnvelopeTail) := by
  obtain ⟨first, rest, hdays⟩ := List.exists_cons_of_ne_nil hne
  obtain ⟨hmem, -, hall⟩ := earliestStart_spec p.Days first.StartTime
  refine ⟨_, earliestStart p.Days first.StartTime, _, _,
    SaveTimesheetCall_full rt c p hdnw first rest hdays, rfl, ?_, hall,
    render_saveTimesheetTemplate _ _ _ _ _ _ _ _⟩
  rcases hmem with h | h
  · exact ⟨first, by simp [hdays], h⟩
  · exact h

/-- C8 on the two-day example, whose second day starts first. -/
theorem timesheetDate_earliest_witness :
    exampleSave.DidNotWork = false ∧ exampleSave.Days ≠ [] ∧
    ∃ args tsStartTime days sub,
      SaveTimesheetCall plainRuntime exampleClient exampleSave = .ok args ∧
      args.data = .save exampleClient.AuthParams exampleSave.UserParams exampleSave.TSID
        plainRuntime.uuid (plainRuntime.FormatDate tsStartTime) days exampleSave.Submit sub ∧
      (∃ day ∈ exampleSave.Days, tsStartTime = day.StartTime) ∧
      (∀ day ∈ exampleSave.Days, day.StartTime.Before tsStartTime = false) ∧
      render saveTimesheetTemplate args.data =
        some (saveEnvelopeHead exampleClient.AuthParams exampleSave.UserParams exampleSave.TSID
            plainRuntime.uuid (plainRuntime.FormatDate tsStartTime) ++
          (days.map dayBlock).flatten ++ str "\n\t\t" ++
          completeElement exampleSave.Submit sub ++ saveEnvelopeTail) :=
  ⟨by decide, by decide,
    timesheetDate_earliest plainRuntime exampleClient exampleSave (by decide) (by decide)⟩

/-- On the two-day example the loop ends with the start of the second day. -/
theorem exampleDays_earliest :
    earliestStart exampleDays ⟨1730710800, 0, 0⟩ = ⟨1730628900, 0, 0⟩ := by
  decide

set_option maxRecDepth 100000 in
/-- In the full save template the only node whose text has `<complete>` is the one under
`if .Submit`. -/
theorem saveTimesheetTemplate_complete :
    saveTimesheetTemplate.filter (fun n => Contains n.source (str "<complete>")) =
      [.cond .Submit
        [.text "\n\t\t\t<complete>", .field .SubmissionTime, .text "</complete>\n\t\t"]] := by
  decide

/-- C10: in `SaveTimesheet` with `DidNotWork` false and a non-empty list of days, the
`complete` element is rendered exactly when `Submit` is true (it is the body of the only
`if .Submit` of the template, the one place with `<complete>`); its content is the text
form of the current time when `Submit` is true and `SubmissionTime` is the zero time, and
the text form of `SubmissionTime` when `Submit` is true and `SubmissionTime` is not zero. -/
theorem submissionTime_complete {QU QT : Type} (rt : Runtime QU QT) (c : astuteClient)
    (p : SaveTimesheetParams) (hdnw : p.DidNotWork = false) (hne : p.Days ≠ []) :
    (∃ args date days content,
      SaveTimesheetCall rt c p = .ok args ∧
      args.template = templateSource saveTimesheetTemplate ∧
      args.data = .save c.AuthParams p.UserParams p.TSID rt.uuid date days p.Submit content ∧
      (p.Submit = true → p.SubmissionTime.IsZero = true → content = rt.TimeString rt.now) ∧
      (p.Submit = true → p.SubmissionTime.IsZero = false →
        content = rt.TimeString p.SubmissionTime) ∧
      render saveTimesheetTemplate args.data =
        some (saveEnvelopeHead c.AuthParams p.UserParams p.TSID rt.uuid date ++
          (days.map dayBlock).flatten ++ str "\n\t\t" ++
          (if p.Submit = true then
            str "\n\t\t\t<complete>" ++ content ++ str "</complete>\n\t\t"
           else []) ++
          saveEnvelopeTail)) ∧
    saveTimesheetTemplate.filter (fun n => Contains n.source (str "<complete>")) =
      [.cond .Submit
        [.text "\n\t\t\t<complete>", .field .SubmissionTime, .text "</complete>\n\t\t"]] := by
  obtain ⟨first, rest, hdays⟩ := List.exists_cons_of_ne_nil hne
  refine ⟨⟨_, _, _, _, SaveTimesheetCall_full rt c p hdnw first rest hdays, rfl, rfl, ?_, ?_, ?_⟩,
    saveTimesheetTemplate_complete⟩
  · intro hs hz
    simp [hs, hz]
  · intro hs hz
    simp [hs, hz]
  · rw [render_saveTimesheetTemplate]
    rfl

/-- C10 on the two-day example, submitted at an explicit time. -/
theorem submissionTime_complete_witness :
    exampleSave.DidNotWork = false ∧ exampleSave.Days ≠ [] ∧
    (∃ args date days content,
      SaveTimesheetCall plainRuntime exampleClient exampleSave = .ok args ∧
      args.template = templateSource saveTimesheetTemplate ∧
      args.data = .save exampleClient.AuthParams exampleSave.UserParams exampleSave.TSID
        plainRuntime.uuid date days exampleSave.Submit content ∧
      (exampleSave.Submit = true → exampleSave.SubmissionTime.IsZero = true →
        content = plainRuntime.TimeString plainRuntime.now) ∧
      (exampleSave.Submit = true → exampleSave.SubmissionTime.IsZero = false →
        content = plainRuntime.TimeString exampleSave.SubmissionTime) ∧
      render saveTimesheetTemplate args.data =
        some (saveEnvelopeHead exampleClient.AuthParams exampleSave.UserParams exampleSave.TSID
            plainRuntime.uuid date ++
          (days.map dayBlock).flatten ++ str "\n\t\t" ++
          (if exampleSave.Submit = true then
            str "\n\t\t\t<complete>" ++ content ++ str "</complete>\n\t\t"
           else []) ++
          saveEnvelopeTail)) ∧
    saveTimesheetTemplate.filter (fun n => Contains n.source (str "<complete>")) =
      [.cond .Submit
        [.text "\n\t\t\t<complete>", .field .SubmissionTime, .text "</complete>\n\t\t"]] :=
  ⟨by decide, by decide,
    submissionTime_complete plainRuntime exampleClient exampleSave (by decide) (by decide)⟩

/-! ### The response of the operations -/

/-- A format without `%` is written as it is. -/
theorem doPrintfLoop_verbatim (s : GoString) (h : 37 ∉ s) : doPrintfLoop 0 s = s := by
  induction s with
  | nil => rfl
  | cons c cs ih =>
    have hc : c ≠ 37 := fun e => h (by simp [e])
    have hcs : 37 ∉ cs := fun e => h (List.mem_cons_of_mem _ e)
    simp [doPrintfLoop, hc, ih hcs]

/-- `fmt.Errorf(s)` has the message `s` when `s` has no `%`. -/
theorem Errorf_verbatim (s : GoString) (h : 37 ∉ s) : Errorf s = ⟨s⟩ := by
  simp [Errorf, doPrintfLoop_verbatim s h]

set_option maxRecDepth 100000 in
/-- C1, at the fault string `Invalid value: 50%`: each of the five operations returns the
zero value and an error whose message is `Invalid value: 50%!(NOVERB)`, which is not the
fault string. -/
theorem fault_text_with_percent :
    QueryUser (faultRuntime (str "Invalid value: 50%")) faultClient ⟨str "J1"⟩ =
      ((), some ⟨str "Invalid value: 50%!(NOVERB)"⟩) ∧
    QueryTimesheetByJob (faultRuntime (str "Invalid value: 50%")) faultClient ⟨str "1001"⟩ =
      ((), some ⟨str "Invalid value: 50%!(NOVERB)"⟩) ∧
    QueryTimesheetById (faultRuntime (str "Invalid value: 50%")) faultClient (str "77") =
      ((), some ⟨str "Invalid value: 50%!(NOVERB)"⟩) ∧
    SaveTimesheet (faultRuntime (str "Invalid value: 50%")) faultClient exampleSave =
      .ok (⟨[]⟩, some ⟨str "Invalid value: 50%!(NOVERB)"⟩) ∧
    SubmitTimesheet (faultRuntime (str "Invalid value: 50%")) faultClient exampleSubmit =
      .ok (⟨[]⟩, some ⟨str "Invalid value: 50%!(NOVERB)"⟩) ∧
    str "Invalid value: 50%!(NOVERB)" ≠ str "Invalid value: 50%" := by
  refine ⟨by decide, by decide, by decide, ?_, ?_, by decide⟩ <;> rfl

/-- For a fault string without `%`, each operation whose call succeeds with a status other
than OK and whose fault decode succeeds returns the zero value and an error whose message
is the fault string. -/
theorem fault_text_verbatim {QU QT : Type} [Inhabited QU] [Inhabited QT]
    (rt : Runtime QU QT) (c : astuteClient) (resp : ClientResponse) (result : faultResponse)
    (s : GoString) (hcode : resp.Code ≠ 200) (hparse : rt.ParseFault resp.Data = (result, none))
    (htext : result.Body.Fault.Faultstring.Text = s) (hs : 37 ∉ s) :
    (∀ p, c.B.Call (QueryUserCall c p) = .ok resp → QueryUser rt c p = (default, some ⟨s⟩)) ∧
    (∀ p, c.B.Call (QueryTimesheetByJobCall c p) = .ok resp →
      QueryTimesheetByJob rt c p = (default, some ⟨s⟩)) ∧
    (∀ id, c.B.Call (QueryTimesheetByIdCall c id) = .ok resp →
      QueryTimesheetById rt c id = (default, some ⟨s⟩)) ∧
    (∀ p args, SaveTimesheetCall rt c p = .ok args → c.B.Call args = .ok resp →
      SaveTimesheet rt c p = .ok (⟨[]⟩, some ⟨s⟩)) ∧
    (∀ p, c.B.Call (SubmitTimesheetCall rt c p) = .ok resp →
      SubmitTimesheet rt c p = .ok (⟨[]⟩, some ⟨s⟩)) := by
  subst htext
  refine ⟨?_, ?_, ?_, ?_, ?_⟩
  · intro p hcall
    simp [QueryUser, hcall, hcode, hparse, Errorf_verbatim _ hs]
  · intro p hcall
    simp [QueryTimesheetByJob, hcall, hcode, hparse, Errorf_verbatim _ hs]
  · intro id hcall
    simp [QueryTimesheetById, hcall, hcode, hparse, Errorf_verbatim _ hs]
  · intro p args hargs hcall
    simp [SaveTimesheet, hargs, hcall, hcode, hparse, Errorf_verbatim _ hs]
  · intro p hcall
    simp [SubmitTimesheet, hcall, hcode, hparse, Errorf_verbatim _ hs]

/-- The fault string `Invalid credentials` is returned as it is by `SaveTimesheet`. -/
theorem fault_text_verbatim_witness :
    SaveTimesheet (faultRuntime (str "Invalid credentials")) faultClient exampleDidNotWork =
      .ok (⟨[]⟩, some ⟨str "Invalid credentials"⟩) :=
  (fault_text_verbatim (faultRuntime (str "Invalid credentials")) faultClient ⟨500, []⟩
    ⟨⟨⟨⟨str "Invalid credentials"⟩⟩⟩⟩ (str "Invalid credentials") (by decide) rfl rfl
    (by decide)).2.2.2.1 exampleDidNotWork _ rfl rfl

set_option maxRecDepth 100000 in
/-- C2, at the `Results` text `Result: TSID: 98765`: the text has 19 bytes, the slice from
byte offset 21 is out of range, and `SaveTimesheet` and `SubmitTimesheet` panic instead of
returning the identifier `98765`. -/
theorem timesheetId_short_text :
    (str "Result: TSID: 98765").length = 19 ∧
    Contains (str "Result: TSID: 98765") (str "TSID:") = true ∧
    SaveTimesheet (resultsRuntime (str "Result: TSID: 98765")) exampleClient exampleSave =
      .error .sliceBoundsOutOfRange ∧
    SubmitTimesheet (resultsRuntime (str "Result: TSID: 98765")) exampleClient exampleSubmit =
      .error .sliceBoundsOutOfRange ∧
    SaveTimesheet (resultsRuntime (str "Result: TSID: 98765")) exampleClient exampleSave ≠
      .ok (⟨str "98765"⟩, none) := by
  refine ⟨by decide, by decide, by rfl, by rfl, ?_⟩
  have h : SaveTimesheet (resultsRuntime (str "Result: TSID: 98765")) exampleClient exampleSave =
      .error .sliceBoundsOutOfRange := by rfl
  rw [h]
  exact fun e => by cases e

/-- C2, amended: for a status-OK save response whose decoded `Results` text contains
`TSID:` and has at least 21 bytes, `SaveTimesheet` and `SubmitTimesheet` return no error
and the identifier is the text from byte offset 21 onwards. -/
theorem timesheetId_from_offset_21 {QU QT : Type} (rt : Runtime QU QT) (c : astuteClient)
    (resp : ClientResponse) (result : saveTimesheetXmlResponse) (t : GoString)
    (hcode : resp.Code = 200) (hparse : rt.ParseSaveTimesheetXml resp.Data = (result, none))
    (htext : result.Body.TimesheetSaveResponse.ParmsOut.Results.Text = t)
    (hcontains : Contains t (str "TSID:") = true) (hlen : 21 ≤ t.length) :
    (∀ p args, SaveTimesheetCall rt c p = .ok args → c.B.Call args = .ok resp →
      SaveTimesheet rt c p = .ok (⟨t.drop 21⟩, none)) ∧
    (∀ p, c.B.Call (SubmitTimesheetCall rt c p) = .ok resp →
      SubmitTimesheet rt c p = .ok (⟨t.drop 21⟩, none)) := by
  subst htext
  refine ⟨?_, ?_⟩
  · intro p args hargs hcall
    simp [SaveTimesheet, hargs, hcall, hcode, hparse, hcontains, sliceFrom, hlen]
  · intro p hcall
    simp [SubmitTimesheet, hcall, hcode, hparse, hcontains, sliceFrom, hlen]

set_option maxRecDepth 100000 in
/-- C2, amended, at the `Results` text `Saved with new TSID: 98765`, whose identifier
starts at byte offset 21: both operations return the identifier `98765`. -/
theorem timesheetId_from_offset_21_witness :
    (str "Saved with new TSID: 98765").drop 21 = str "98765" ∧
    SaveTimesheet (resultsRuntime (str "Saved with new TSID: 98765")) exampleClient exampleSave =
      .ok (⟨(str "Saved with new TSID: 98765").drop 21⟩, none) ∧
    SubmitTimesheet (resultsRuntime (str "Saved with new TSID: 98765")) exampleClient
      exampleSubmit = .ok (⟨(str "Saved with new TSID: 98765").drop 21⟩, none) :=
  have h := timesheetId_from_offset_21 (resultsRuntime (str "Saved with new TSID: 98765"))
    exampleClient ⟨200, []⟩ ⟨⟨⟨⟨⟨str "Saved with new TSID: 98765"⟩⟩⟩⟩⟩
    (str "Saved with new TSID: 98765") rfl rfl rfl (by decide) (by decide)
  ⟨by decide, h.1 exampleSave _ rfl rfl, h.2 exampleSubmit rfl⟩

set_option maxRecDepth 100000 in
/-- C3, at the `Results` text `Error: 100% of hours rejected`, which has no `TSID:`:
`SaveTimesheet` and `SubmitTimesheet` return the zero value and an error whose message is
`Error: 100%!o(MISSING)f hours rejected`, which is not the text. -/
theorem results_text_with_percent :
    Contains (str "Error: 100% of hours rejected") (str "TSID:") = false ∧
    SaveTimesheet (resultsRuntime (str "Error: 100% of hours rejected")) exampleClient
      exampleSave = .ok (⟨[]⟩, some ⟨str "Error: 100%!o(MISSING)f hours rejected"⟩) ∧
    SubmitTimesheet (resultsRuntime (str "Error: 100% of hours rejected")) exampleClient
      exampleSubmit = .ok (⟨[]⟩, some ⟨str "Error: 100%!o(MISSING)f hours rejected"⟩) ∧
    str "Error: 100%!o(MISSING)f hours rejected" ≠ str "Error: 100% of hours rejected" := by
  refine ⟨by decide, ?_, ?_, by decide⟩ <;> rfl

/-- For a `Results` text without `TSID:` and without `%`, `SaveTimesheet` and
`SubmitTimesheet` return the zero value and an error whose message is the text. -/
theorem results_text_verbatim {QU QT : Type} (rt : Runtime QU QT) (c : astuteClient)
    (resp : ClientResponse) (result : saveTimesheetXmlResponse) (t : GoString)
    (hcode : resp.Code = 200) (hparse : rt.ParseSaveTimesheetXml resp.Data = (result, none))
    (htext : result.Body.TimesheetSaveResponse.ParmsOut.Results.Text = t)
    (hcontains : Contains t (str "TSID:") = false) (ht : 37 ∉ t) :
    (∀ p args, SaveTimesheetCall rt c p = .ok args → c.B.Call args = .ok resp →
      SaveTimesheet rt c p = .ok (⟨[]⟩, some ⟨t⟩)) ∧
    (∀ p, c.B.Call (SubmitTimesheetCall rt c p) = .ok resp →
      SubmitTimesheet rt c p = .ok (⟨[]⟩, some ⟨t⟩)) := by
  subst htext
  refine ⟨?_, ?_⟩
  · intro p args hargs hcall
    simp [SaveTimesheet, hargs, hcall, hcode, hparse, hcontains, Errorf_verbatim _ ht]
  · intro p hcall
    simp [SubmitTimesheet, hcall, hcode, hparse, hcontains, Errorf_verbatim _ ht]

set_option maxRecDepth 100000 in
/-- The text `Timesheet is locked` is returned as the error of both operations. -/
theorem results_text_verbatim_witness :
    SaveTimesheet (resultsRuntime (str "Timesheet is locked")) exampleClient exampleSave =
      .ok (⟨[]⟩, some ⟨str "Timesheet is locked"⟩) ∧
    SubmitTimesheet (resultsRuntime (str "Timesheet is locked")) exampleClient exampleSubmit =
      .ok (⟨[]⟩, some ⟨str "Timesheet is locked"⟩) :=
  have h := results_text_verbatim (resultsRuntime (str "Timesheet is locked")) exampleClient
    ⟨200, []⟩ ⟨⟨⟨⟨⟨str "Timesheet is locked"⟩⟩⟩⟩⟩ (str "Timesheet is locked") rfl rfl rfl
    (by decide) (by decide)
  ⟨h.1 exampleSave _ rfl rfl, h.2 exampleSubmit rfl⟩

/-- C9: for each of the five operations, when the transport call succeeds and a parse of
the response fails, no error is returned: the result is the zero value when the fault-shape
parse fails on a status other than OK and when the outer parse fails on status OK; when the
inner parse of the `Results` text of a query fails, the result is what that parse left. -/
theorem parse_failure_no_error {QU QT : Type} [Inhabited QU] [Inhabited QT]
    (rt : Runtime QU QT) (c : astuteClient) (resp : ClientResponse) :
    (resp.Code ≠ 200 → (rt.ParseFault resp.Data).2 ≠ none →
      (∀ p, c.B.Call (QueryUserCall c p) = .ok resp → QueryUser rt c p = (default, none)) ∧
      (∀ p, c.B.Call (QueryTimesheetByJobCall c p) = .ok resp →
        QueryTimesheetByJob rt c p = (default, none)) ∧
      (∀ id, c.B.Call (QueryTimesheetByIdCall c id) = .ok resp →
        QueryTimesheetById rt c id = (default, none)) ∧
      (∀ p args, SaveTimesheetCall rt c p = .ok args → c.B.Call args = .ok resp →
        SaveTimesheet rt c p = .ok (⟨[]⟩, none)) ∧
      (∀ p, c.B.Call (SubmitTimesheetCall rt c p) = .ok resp →
        SubmitTimesheet rt c p = .ok (⟨[]⟩, none))) ∧
    (resp.Code = 200 →
      ((rt.ParseQueryUserXml resp.Data).2 ≠ none →
        ∀ p, c.B.Call (QueryUserCall c p) = .ok resp → QueryUser rt c p = (default, none)) ∧
      ((rt.ParseQueryTimesheetXml resp.Data).2 ≠ none →
        (∀ p, c.B.Call (QueryTimesheetByJobCall c p) = .ok resp →
          QueryTimesheetByJob rt c p = (default, none)) ∧
        (∀ id, c.B.Call (QueryTimesheetByIdCall c id) = .ok resp →
          QueryTimesheetById rt c id = (default, none))) ∧
      ((rt.ParseSaveTimesheetXml resp.Data).2 ≠ none →
        (∀ p args, SaveTimesheetCall rt c p = .ok args → c.B.Call args = .ok resp →
          SaveTimesheet rt c p = .ok (⟨[]⟩, none)) ∧
        (∀ p, c.B.Call (SubmitTimesheetCall rt c p) = .ok resp →
          SubmitTimesheet rt c p = .ok (⟨[]⟩, none)))) ∧
    (resp.Code = 200 →
      ((rt.ParseQueryUserXml resp.Data).2 = none →
        (rt.ParseQueryUser
          (rt.ParseQueryUserXml resp.Data).1.Body.UserQueryResponse.ParmsOut.Results.Text).2 ≠
            none →
        ∀ p, c.B.Call (QueryUserCall c p) = .ok resp →
          QueryUser rt c p =
            ((rt.ParseQueryUser
              (rt.ParseQueryUserXml resp.Data).1.Body.UserQueryResponse.ParmsOut.Results.Text).1,
              none)) ∧
      ((rt.ParseQueryTimesheetXml resp.Data).2 = none →
        (rt.ParseQueryTimesheet
          (rt.ParseQueryTimesheetXml
            resp.Data).1.Body.TimesheetQueryResponse.ParmsOut.Results.Text).2 ≠ none →
        (∀ p, c.B.Call (QueryTimesheetByJobCall c p) = .ok resp →
          QueryTimesheetByJob rt c p =
            ((rt.ParseQueryTimesheet
              (rt.ParseQueryTimesheetXml
                resp.Data).1.Body.TimesheetQueryResponse.ParmsOut.Results.Text).1, none)) ∧
        (∀ id, c.B.Call (QueryTimesheetByIdCall c id) = .ok resp →
          QueryTimesheetById rt c id =
            ((rt.ParseQueryTimesheet
              (rt.ParseQueryTimesheetXml
                resp.Data).1.Body.TimesheetQueryResponse.ParmsOut.Results.Text).1, none)))) := by
  refine ⟨?_, ?_, ?_⟩
  · intro hcode hfail
    obtain ⟨e, he⟩ := Option.ne_none_iff_exists'.mp hfail
    have hparse : rt.ParseFault resp.Data = ((rt.ParseFault resp.Data).1, some e) := by
      rw [← he]
    refine ⟨?_, ?_, ?_, ?_, ?_⟩
    · intro p hcall
      simp only [QueryUser, hcall, hcode, if_true, ne_eq, not_false_eq_true]
      rw [hparse]
    · intro p hcall
      simp only [QueryTimesheetByJob, hcall, hcode, if_true, ne_eq, not_false_eq_true]
      rw [hparse]
    · intro id hcall
      simp only [QueryTimesheetById, hcall, hcode, if_true, ne_eq, not_false_eq_true]
      rw [hparse]
    · intro p args hargs hcall
      simp only [SaveTimesheet, hargs, hcall, hcode, if_true, ne_eq, not_false_eq_true]
      rw [hparse]
    · intro p hcall
      simp only [SubmitTimesheet, hcall, hcode, if_true, ne_eq, not_false_eq_true]
      rw [hparse]
  · intro hcode
    refine ⟨?_, ?_, ?_⟩
    · intro hfail p hcall
      obtain ⟨e, he⟩ := Option.ne_none_iff_exists'.mp hfail
      have hparse : rt.ParseQueryUserXml resp.Data =
          ((rt.ParseQueryUserXml resp.Data).1, some e) := by rw [← he]
      simp only [QueryUser, hcall, hcode, ne_eq, not_true_eq_false, if_false]
      rw [hparse]
    · intro hfail
      obtain ⟨e, he⟩ := Option.ne_none_iff_exists'.mp hfail
      have hparse : rt.ParseQueryTimesheetXml resp.Data =
          ((rt.ParseQueryTimesheetXml resp.Data).1, some e) := by rw [← he]
      refine ⟨?_, ?_⟩
      · intro p hcall
        simp only [QueryTimesheetByJob, hcall, hcode, ne_eq, not_true_eq_false, if_false]
        rw [hparse]
      · intro id hcall
        simp only [QueryTimesheetById, hcall, hcode, ne_eq, not_true_eq_false, if_false]
        rw [hparse]
    · intro hfail
      obtain ⟨e, he⟩ := Option.ne_none_iff_exists'.mp hfail
      have hparse : rt.ParseSaveTimesheetXml resp.Data =
          ((rt.ParseSaveTimesheetXml resp.Data).1, some e) := by rw [← he]
      refine ⟨?_, ?_⟩
      · intro p args hargs hcall
        simp only [SaveTimesheet, hargs, hcall, hcode, ne_eq, not_true_eq_false, if_false]
        rw [hparse]
      · intro p hcall
        simp only [SubmitTimesheet, hcall, hcode, ne_eq, not_true_eq_false, if_false]
        rw [hparse]
  · intro hcode
    refine ⟨?_, ?_⟩
    · intro houter hinner p hcall
      have hparse : rt.ParseQueryUserXml resp.Data =
          ((rt.ParseQueryUserXml resp.Data).1, none) := by rw [← houter]
      simp only [QueryUser, hcall, hcode, ne_eq, not_true_eq_false, if_false]
      rw [hparse]
      simp only
      split <;> rename_i h <;> rw [h]
    · intro houter hinner
      have hparse : rt.ParseQueryTimesheetXml resp.Data =
          ((rt.ParseQueryTimesheetXml resp.Data).1, none) := by rw [← houter]
      refine ⟨?_, ?_⟩
      · intro p hcall
        simp only [QueryTimesheetByJob, hcall, hcode, ne_eq, not_true_eq_false, if_false]
        rw [hparse]
        simp only
        split <;> rename_i h <;> rw [h]
      · intro id hcall
        simp only [QueryTimesheetById, hcall, hcode, ne_eq, not_true_eq_false, if_false]
        rw [hparse]
        simp only
        split <;> rename_i h <;> rw [h]

set_option maxRecDepth 100000 in
/-- C9 on a status-500 answer whose fault decode fails, on a status-200 answer whose outer
decode fails, and on a status-200 answer whose inner decode fails: no error is returned. -/
theorem parse_failure_no_error_witness :
    (failingRuntime.ParseFault []).2 ≠ none ∧
    (failingRuntime.ParseSaveTimesheetXml []).2 ≠ none ∧
    (innerFailingRuntime.ParseQueryTimesheet (str "<Users>")).2 ≠ none ∧
    QueryUser failingRuntime faultClient ⟨str "J1"⟩ = ((), none) ∧
    SaveTimesheet failingRuntime faultClient exampleSave = .ok (⟨[]⟩, none) ∧
    SubmitTimesheet failingRuntime exampleClient exampleSubmit = .ok (⟨[]⟩, none) ∧
    QueryTimesheetById innerFailingRuntime exampleClient (str "77") = ((), none) :=
  have hf := (parse_failure_no_error failingRuntime faultClient ⟨500, []⟩).1
    (by decide) (by decide)
  have ho := (parse_failure_no_error failingRuntime exampleClient ⟨200, []⟩).2.1 rfl
  have hi := (parse_failure_no_error innerFailingRuntime exampleClient ⟨200, []⟩).2.2 rfl
  ⟨by decide, by decide, by decide, hf.1 _ rfl, hf.2.2.2.1 exampleSave _ rfl rfl,
    (ho.2.2 (by decide)).2 exampleSubmit rfl, (hi.2 rfl (by decide)).2 (str "77") rfl⟩

end Astute
